import Mathlib

/-!
Verification development for a compartmental (SEIR-like) COVID-19 agent
simulation.  The Python sources are embedded shallowly:

* `agent.py` : module constant `TICKS_PER_DAY`, the `Compartment` enum and the
  `Agent` class (constructor, `tick`, `contact`) become `Compartment`,
  `AgentState`, `agentInit`, `agentTick`, `agentContact`.
* `model.py` : the `Model` class (constructor and `tick`) becomes `ModelState`,
  `mkModel`, `modelTick`, with the spatial-index contact search embedded by
  `tickPairs`.

Python floats are embedded as exact rationals (every IEEE double is a dyadic
rational; `math.sqrt` is embedded as the exact real square root).  Python ints
are embedded as `Int`/`Nat`.  Randomness (`random.random`, `random.randint`,
`random.uniform`-derived direction cosines, `random.shuffle`) is embedded as
explicit oracle inputs; validity predicates record the ranges the Python
generators guarantee.
-/

/-- Module constant from agent.py: `TICKS_PER_DAY = 4 * 24`. -/
def TICKS_PER_DAY : ℤ := 4 * 24

/-- The `Compartment` enum from agent.py with values SUSCEPTIBLE 0, EXPOSED 1,
INFECTIOUS 2, RECOVERED 3, DECEASED 4. -/
inductive Compartment where
  | SUSCEPTIBLE
  | EXPOSED
  | INFECTIOUS
  | RECOVERED
  | DECEASED
deriving DecidableEq

/-- The numeric `value` of a `Compartment` member, as declared in agent.py. -/
def Compartment.value : Compartment → ℕ
  | .SUSCEPTIBLE => 0
  | .EXPOSED => 1
  | .INFECTIOUS => 2
  | .RECOVERED => 3
  | .DECEASED => 4

/-- Class constant `Agent.INFECTION_PROBABILITY = 0.037`. -/
def INFECTION_PROBABILITY : ℚ := 37 / 1000

/-- Class constant `Agent.INCUBATION_MIN_TICKS = 2 * TICKS_PER_DAY`. -/
def INCUBATION_MIN_TICKS : ℤ := 2 * TICKS_PER_DAY

/-- Class constant `Agent.INCUBATION_MAX_TICKS = 14 * TICKS_PER_DAY`. -/
def INCUBATION_MAX_TICKS : ℤ := 14 * TICKS_PER_DAY

/-- Class constant `Agent.ASYMPTOMATIC_PROBABILITY = 0.20`. -/
def ASYMPTOMATIC_PROBABILITY : ℚ := 20 / 100

/-- Class constant `Agent.MASK_INFECTION_FACTOR = 0.56`. -/
def MASK_INFECTION_FACTOR : ℚ := 56 / 100

/-- Class constant `Agent.TICKS_INFECTIOUS_AFTER_SYMPTOMATIC = 10 * TICKS_PER_DAY`. -/
def TICKS_INFECTIOUS_AFTER_SYMPTOMATIC : ℤ := 10 * TICKS_PER_DAY

/-- Class constant `Agent.TICKS_IMMUNE = 90 * TICKS_PER_DAY`. -/
def TICKS_IMMUNE : ℤ := 90 * TICKS_PER_DAY

/-- Class constant `Agent.TICKS_INFECTIOUS_BEFORE_SYMPTOMATIC = 3 * TICKS_PER_DAY`. -/
def TICKS_INFECTIOUS_BEFORE_SYMPTOMATIC : ℤ := 3 * TICKS_PER_DAY

/-- Class constant `Agent.CHANCE_OF_DEATH = 321734 / 18170062`. -/
def CHANCE_OF_DEATH : ℚ := 321734 / 18170062

/-- The state of one `Agent` object: public fields `x`, `y`, `num_infections`,
`is_asymptomatic`, `has_mask`, `should_isolate` and the non-public fields
`_is_isolating`, `_compartment`, `_future_compartment`, `_immunity_ticks_left`,
`_ticks_before_symptomatic`, `_ticks_before_infectious`,
`_ticks_infectious_left`. -/
structure AgentState where
  x : ℚ
  y : ℚ
  is_isolating : Bool
  compartment : Compartment
  future_compartment : Compartment
  num_infections : ℕ
  is_asymptomatic : Bool
  has_mask : Bool
  should_isolate : Bool
  immunity_ticks_left : ℤ
  ticks_before_symptomatic : ℤ
  ticks_before_infectious : ℤ
  ticks_infectious_left : ℤ
deriving DecidableEq

instance : Inhabited AgentState :=
  ⟨⟨0, 0, false, Compartment.SUSCEPTIBLE, Compartment.SUSCEPTIBLE, 0, false,
    false, false, 0, 0, 0, 0⟩⟩

/-- `Agent.__init__(x, y, has_mask, should_isolate, infectious)`. -/
def agentInit (x y : ℚ) (has_mask should_isolate infectious : Bool) : AgentState :=
  if infectious then
    { x := x, y := y, is_isolating := false
      compartment := Compartment.INFECTIOUS
      future_compartment := Compartment.INFECTIOUS
      num_infections := 1
      immunity_ticks_left := TICKS_IMMUNE
      ticks_before_symptomatic := 3 * TICKS_PER_DAY
      is_asymptomatic := true
      ticks_before_infectious := 0
      ticks_infectious_left := 0
      has_mask := has_mask, should_isolate := should_isolate }
  else
    { x := x, y := y, is_isolating := false
      compartment := Compartment.SUSCEPTIBLE
      future_compartment := Compartment.SUSCEPTIBLE
      num_infections := 0
      immunity_ticks_left := 0
      ticks_before_symptomatic := 0
      is_asymptomatic := false
      ticks_before_infectious := 0
      ticks_infectious_left := 0
      has_mask := has_mask, should_isolate := should_isolate }

/-- The random draws consumed by one call to `Agent.tick`: the cosine and sine
of the uniformly drawn movement direction, and the `random.random()` draw
compared against `CHANCE_OF_DEATH`. -/
structure TickRand where
  dirCos : ℚ
  dirSin : ℚ
  deathU : ℚ

/-- Ranges guaranteed by the Python generators: `random.random()` lies in
[0, 1) and the movement step is one unit of Euclidean distance. -/
def TickRand.Valid (r : TickRand) : Prop :=
  0 ≤ r.deathU ∧ r.deathU < 1 ∧ r.dirCos * r.dirCos + r.dirSin * r.dirSin = 1

/-- The random draws consumed by one call to `Agent.contact`: the
`random.random()` transmission draw, the `random.random()` asymptomatic-case
draw, and the `random.randint(INCUBATION_MIN_TICKS, INCUBATION_MAX_TICKS)`
incubation draw. -/
structure ContactRand where
  transmitU : ℚ
  asymptU : ℚ
  incubation : ℤ

/-- Ranges guaranteed by the Python generators for a `contact` call. -/
def ContactRand.Valid (r : ContactRand) : Prop :=
  0 ≤ r.transmitU ∧ r.transmitU < 1 ∧ 0 ≤ r.asymptU ∧ r.asymptU < 1 ∧
    INCUBATION_MIN_TICKS ≤ r.incubation ∧ r.incubation ≤ INCUBATION_MAX_TICKS

/-- The transmission probability computed at the start of `Agent.contact`:
`INFECTION_PROBABILITY`, multiplied by `MASK_INFECTION_FACTOR` when the agent
wears a mask. -/
def transmissionProb (s : AgentState) : ℚ :=
  if s.has_mask then INFECTION_PROBABILITY * MASK_INFECTION_FACTOR
  else INFECTION_PROBABILITY

/-- `Agent.contact`, with the three random draws passed explicitly. -/
def agentContact (r : ContactRand) (s : AgentState) : AgentState :=
  if s.future_compartment = Compartment.SUSCEPTIBLE then
    if r.transmitU < transmissionProb s then
      let tbs := r.incubation
      let tbi := tbs - TICKS_INFECTIOUS_BEFORE_SYMPTOMATIC
      { s with
        num_infections := s.num_infections + 1
        immunity_ticks_left := TICKS_IMMUNE
        is_asymptomatic :=
          if r.asymptU < ASYMPTOMATIC_PROBABILITY then true else false
        ticks_before_symptomatic := tbs
        ticks_before_infectious := tbi
        future_compartment :=
          if tbi ≤ 0 then Compartment.INFECTIOUS else Compartment.EXPOSED }
    else s
  else s

/-- The compartment-dispatch block at the start of `Agent.tick` (the
`if/elif` chain on `self._compartment`), with the `random.random()` death draw
passed explicitly. -/
def tickTransition (deathU : ℚ) (s : AgentState) : AgentState :=
  match s.compartment with
  | Compartment.EXPOSED =>
    let t := { s with
      ticks_before_infectious := s.ticks_before_infectious - 1
      ticks_before_symptomatic := s.ticks_before_symptomatic - 1 }
    if t.ticks_before_infectious = 0 then
      { t with future_compartment := Compartment.INFECTIOUS }
    else t
  | Compartment.INFECTIOUS =>
    let t := { s with
      ticks_before_symptomatic := s.ticks_before_symptomatic - 1 }
    if t.ticks_before_symptomatic = 0 then
      let u := { t with
        ticks_infectious_left := TICKS_INFECTIOUS_AFTER_SYMPTOMATIC }
      if u.should_isolate && !u.is_asymptomatic then
        { u with is_isolating := true }
      else u
    else if t.ticks_before_symptomatic < 0 then
      let u := { t with ticks_infectious_left := t.ticks_infectious_left - 1 }
      if u.ticks_infectious_left = 0 then
        let v := { u with is_isolating := false }
        if deathU < CHANCE_OF_DEATH then
          { v with future_compartment := Compartment.DECEASED }
        else
          { v with future_compartment := Compartment.RECOVERED }
      else u
    else t
  | Compartment.RECOVERED =>
    if s.immunity_ticks_left = 0 then
      { s with future_compartment := Compartment.SUSCEPTIBLE }
    else s
  | _ => s

/-- `Agent.tick`, with the random draws passed explicitly.  The compartment
branch (`tickTransition`) runs first, then the movement step (skipped for
isolating or deceased agents), then the unconditional immunity-countdown
decrement, and finally the commit
`self._compartment = self._future_compartment`. -/
def agentTick (r : TickRand) (s : AgentState) : AgentState :=
  let s1 := tickTransition r.deathU s
  let s2 :=
    if !s1.is_isolating && !(decide (s1.compartment = Compartment.DECEASED)) then
      { s1 with x := s1.x + r.dirCos, y := s1.y + r.dirSin }
    else s1
  let s3 :=
    if s2.immunity_ticks_left > 0 then
      { s2 with immunity_ticks_left := s2.immunity_ticks_left - 1 }
    else s2
  { s3 with compartment := s3.future_compartment }

/-- One externally triggered operation on an agent. -/
inductive AStep where
  | tickS (r : TickRand)
  | contactS (r : ContactRand)

/-- Whether a step's random draws lie in the ranges the Python generators
guarantee. -/
def AStep.Valid : AStep → Prop
  | .tickS r => r.Valid
  | .contactS r => r.Valid

/-- Apply one step to an agent state. -/
def applyStep (st : AStep) (s : AgentState) : AgentState :=
  match st with
  | .tickS r => agentTick r s
  | .contactS r => agentContact r s

/-- Apply a sequence of steps, oldest first. -/
def runSteps (l : List AStep) (s : AgentState) : AgentState :=
  l.foldl (fun acc st => applyStep st acc) s

/-- Apply a sequence of ticks, oldest first. -/
def tickRun (l : List TickRand) (s : AgentState) : AgentState :=
  l.foldl (fun acc r => agentTick r acc) s

/-- Agent states reachable by a constructor call followed by any sequence of
`tick` and `contact` calls whose random draws are in range. -/
inductive Reachable : AgentState → Prop where
  | init (x y : ℚ) (has_mask should_isolate infectious : Bool) :
      Reachable (agentInit x y has_mask should_isolate infectious)
  | tick (s : AgentState) (r : TickRand) :
      Reachable s → r.Valid → Reachable (agentTick r s)
  | contact (s : AgentState) (r : ContactRand) :
      Reachable s → r.Valid → Reachable (agentContact r s)

/-- Python's built-in `round` on an exact rational: round to the nearest
integer, with halves rounded to the nearest even integer. -/
def pyRound (q : ℚ) : ℤ :=
  if Int.fract q < 1 / 2 then ⌊q⌋
  else if 1 / 2 < Int.fract q then ⌊q⌋ + 1
  else if 2 ∣ ⌊q⌋ then ⌊q⌋ else ⌊q⌋ + 1

/-- Class constant `Model.MASK_TRANSMISSION_FACTOR = 0.24`. -/
def MASK_TRANSMISSION_FACTOR : ℚ := 24 / 100

/-- The state of a `Model` object: the `_agents` list plus the scalar
instance variables. -/
structure ModelState where
  agents : List AgentState
  ticks_to_simulate : ℤ
  infection_distance : ℚ
  num_agents : ℕ
  tick_count : ℕ
  peak_cases : ℕ

/-- `round((grid_side_length - 1) / 2)` from `Model.__init__`. -/
def centerCoord (g : ℕ) : ℤ := pyRound (((g : ℚ) - 1) / 2)

/-- `infectious_agent_index` from `Model.__init__`: the index of the agent
created initially infectious. -/
def infectiousAgentIndex (g : ℕ) : ℤ := centerCoord g * g + centerCoord g

/-- `Model.__init__`.  The two `random.shuffle` outcomes are passed in as the
already-shuffled boolean lists `has_mask_list` and `should_isolate_list`;
theorems about the constructor constrain them to be permutations of the
unshuffled lists built from `num_agents_wearing_masks` and
`num_agents_self_isolating`. -/
def mkModel (grid_side_length : ℕ) (days_to_simulate : ℤ)
    (has_mask_list should_isolate_list : List Bool)
    (infection_distance : ℚ) : ModelState :=
  let n := grid_side_length * grid_side_length
  { agents :=
      (List.range n).map (fun (i : ℕ) =>
        agentInit
          (infection_distance *
            ((2 * ((i : ℤ) % (grid_side_length : ℤ)) -
              ((grid_side_length : ℤ) - 1) : ℤ) : ℚ))
          (infection_distance *
            ((2 * ((i : ℤ) / (grid_side_length : ℤ)) -
              ((grid_side_length : ℤ) - 1) : ℤ) : ℚ))
          (has_mask_list.getD i false)
          (should_isolate_list.getD i false)
          (decide ((i : ℤ) = infectiousAgentIndex grid_side_length)))
    ticks_to_simulate := days_to_simulate * TICKS_PER_DAY
    infection_distance := infection_distance
    num_agents := n
    tick_count := 0
    peak_cases := 1 }

/-- `num_agents_wearing_masks` for percentage `p` and `n` agents, and likewise
`num_agents_self_isolating`: `round((p / 100) * n)`. -/
def numFromPercent (p : ℚ) (n : ℕ) : ℤ := pyRound (p / 100 * n)

/-- The unshuffled boolean assignment list built in `Model.__init__`:
`[True if i < m else False for i in range(n)]`. -/
def baseAssignList (m : ℤ) (n : ℕ) : List Bool :=
  (List.range n).map (fun (i : ℕ) => if (i : ℤ) < m then true else false)

/-- The sort `self._agents.sort(key=lambda ag: ag.compartment.value)` at the
start of `Model.tick` (Python's stable sort, embedded as a comparison sort;
all properties proved below depend only on sortedness and permutation). -/
def sortByComp (l : List AgentState) : List AgentState :=
  List.insertionSort
    (fun a b => a.compartment.value ≤ b.compartment.value) l

/-- `bisect.bisect_right(self._agents, 0, key=lambda ag: ag.compartment.value)`:
on a list sorted by compartment value, Python's `bisect_right` returns the
number of elements with key at most 0. -/
def suscCount (sorted : List AgentState) : ℕ :=
  sorted.countP (fun a => a.compartment.value ≤ 0)

/-- `susceptible_agents` after its sort by x, represented by the list of its
indices into the compartment-sorted agent list (the slice `[0:suscCount]`
sorted by x position; Python sorts the same objects, so indices identify
them). -/
def suscIdxList (sorted : List AgentState) : List ℕ :=
  List.insertionSort
    (fun i j => (sorted.getD i default).x ≤ (sorted.getD j default).x)
    (List.range (suscCount sorted))

/-- `susceptible_agents_x_pos = [ag.x for ag in susceptible_agents]`. -/
def suscXs (sorted : List AgentState) : List ℚ :=
  (suscIdxList sorted).map (fun i => (sorted.getD i default).x)

/-- `bisect.bisect_left(self._agents, 2, key=...)`: the number of elements of
the compartment-sorted list with compartment value below 2. -/
def infLeftIndex (sorted : List AgentState) : ℕ :=
  sorted.countP (fun a => a.compartment.value < 2)

/-- `bisect.bisect_right(self._agents, 2, key=...)`: the number of elements of
the compartment-sorted list with compartment value at most 2. -/
def infRightIndex (sorted : List AgentState) : ℕ :=
  sorted.countP (fun a => a.compartment.value ≤ 2)

/-- The Euclidean distance check from `Model.tick`:
`math.sqrt((a.x - ag.x)*(a.x - ag.x) + (a.y - ag.y)*(a.y - ag.y)) <= d`. -/
def distLe (a ag : AgentState) (d : ℚ) : Prop :=
  Real.sqrt (((a.x - ag.x) * (a.x - ag.x) + (a.y - ag.y) * (a.y - ag.y) : ℚ)) ≤ (d : ℝ)

instance (a ag : AgentState) (d : ℚ) : Decidable (distLe a ag d) :=
  decidable_of_iff
    (0 ≤ d ∧ (a.x - ag.x) * (a.x - ag.x) + (a.y - ag.y) * (a.y - ag.y) ≤ d * d)
    (by
      unfold distLe
      rw [Real.sqrt_le_iff]
      constructor
      · rintro ⟨h0, h1⟩
        refine ⟨by exact_mod_cast h0, ?_⟩
        have hd : (((d * d : ℚ) : ℝ) = (d : ℝ) ^ 2) := by push_cast; ring
        rw [← hd]
        exact_mod_cast h1
      · rintro ⟨h0, h1⟩
        refine ⟨by exact_mod_cast h0, ?_⟩
        have hd : (((d * d : ℚ) : ℝ) = (d : ℝ) ^ 2) := by push_cast; ring
        rw [← hd] at h1
        exact_mod_cast h1)

/-- The contact-search loops of `Model.tick`, returning the index pairs
(infectious index, susceptible index) into the compartment-sorted agent list
on which a transmission attempt is made.  For each non-isolating agent of the
infectious bucket, the inclusive x window `[ag.x - d, ag.x + d]` of the
x-sorted susceptible list is found by binary search and each candidate in it
is kept when the exact Euclidean distance check passes.  The pair list can be
computed before the contact calls run because `Agent.contact` never changes
the fields the loops read (positions, compartments and the isolation flag of
infectious agents). -/
def tickPairs (sorted : List AgentState) (d : ℚ) : List (ℕ × ℕ) :=
  (List.range' (infLeftIndex sorted) (infRightIndex sorted - infLeftIndex sorted)).flatMap
    (fun i =>
      let ag := sorted.getD i default
      if ag.is_isolating then []
      else
        let jl := (suscXs sorted).countP (fun v => v < ag.x - d)
        let jr := (suscXs sorted).countP (fun v => v ≤ ag.x + d)
        (List.range' jl (jr - jl)).flatMap (fun jp =>
          let j := (suscIdxList sorted).getD jp 0
          let a := sorted.getD j default
          if distLe a ag d then [(i, j)] else []))

/-- The transmission attempts of one `Model.tick` as pairs of agent states
(infectious agent, susceptible agent it attempts to infect). -/
def tickPairAgents (agents : List AgentState) (d : ℚ) :
    List (AgentState × AgentState) :=
  (tickPairs (sortByComp agents) d).map (fun ij =>
    ((sortByComp agents).getD ij.1 default, (sortByComp agents).getD ij.2 default))

/-- The naive quadratic contact scan the specification describes: attempt
contact on every (infectious non-isolating agent, susceptible agent) pair at
Euclidean distance at most the infection radius. -/
def naiveContactScan (agents : List AgentState) (d : ℚ) :
    List (AgentState × AgentState) :=
  agents.flatMap (fun ag =>
    if ag.compartment = Compartment.INFECTIOUS ∧ ag.is_isolating = false then
      (agents.filter (fun a =>
        decide (a.compartment = Compartment.SUSCEPTIBLE) && decide (distLe a ag d))).map
        (fun a => (ag, a))
    else [])

/-- The random draws consumed by one `Model.tick`: the
`random.random()` mask-transmission gate draw and the `Agent.contact` draws
for the attempt on index pair (i, j), and the `Agent.tick` draws for the agent
at index i of the compartment-sorted list. -/
structure ModelOracle where
  gateU : ℕ → ℕ → ℚ
  contactR : ℕ → ℕ → ContactRand
  tickR : ℕ → TickRand

/-- The inner contact loop of `Model.tick`: run the transmission attempts in
loop order, mutating the susceptible agents in the compartment-sorted list.
When the infectious agent wears a mask the whole attempt is gated behind a
draw against `MASK_TRANSMISSION_FACTOR`. -/
def contactFold (o : ModelOracle) (sorted : List AgentState) (d : ℚ) :
    List AgentState :=
  (tickPairs sorted d).foldl (fun st ij =>
    let ag := st.getD ij.1 default
    let a := st.getD ij.2 default
    if ag.has_mask then
      if o.gateU ij.1 ij.2 < MASK_TRANSMISSION_FACTOR then
        st.set ij.2 (agentContact (o.contactR ij.1 ij.2) a)
      else st
    else st.set ij.2 (agentContact (o.contactR ij.1 ij.2) a)) sorted

/-- `current_cases` as counted at the end of `Model.tick`: agents whose
compartment is EXPOSED or INFECTIOUS. -/
def activeCases (l : List AgentState) : ℕ :=
  l.countP (fun ag =>
    decide (ag.compartment = Compartment.EXPOSED) ||
      decide (ag.compartment = Compartment.INFECTIOUS))

/-- `Model.tick`: sort by compartment, run the contact search and the contact
attempts, tick every agent, update the peak case count and the tick count. -/
def modelTick (o : ModelOracle) (m : ModelState) : ModelState :=
  let sorted := sortByComp m.agents
  let afterContact := contactFold o sorted m.infection_distance
  let ticked :=
    (List.range afterContact.length).map (fun i =>
      agentTick (o.tickR i) (afterContact.getD i default))
  let currentCases := activeCases ticked
  { m with
    agents := ticked
    peak_cases :=
      if m.peak_cases < currentCases then currentCases else m.peak_cases
    tick_count := m.tick_count + 1 }

/-- The inductive invariant of an agent: the committed and staged compartments
agree except while an infection contracted this tick is staged on a
susceptible agent, an isolating agent is an infectious non-asymptomatic case,
and the immunity countdown is never negative. -/
def AgentInv (s : AgentState) : Prop :=
  (s.compartment = s.future_compartment ∨
    (s.compartment = Compartment.SUSCEPTIBLE ∧
      (s.future_compartment = Compartment.EXPOSED ∨
        s.future_compartment = Compartment.INFECTIOUS)))
  ∧ (s.is_isolating = true →
      s.compartment = Compartment.INFECTIOUS ∧ s.is_asymptomatic = false)
  ∧ 0 ≤ s.immunity_ticks_left

/-- The per-infectious-agent body of the contact loop, expressed at the level
of agent states: skip the agent if it isolates, otherwise pair it with every
susceptible agent (read off the x-sorted index list) within the infection
distance. -/
def infBody (S : List AgentState) (d : ℚ) (ag : AgentState) :
    List (AgentState × AgentState) :=
  if ag.is_isolating = true then []
  else
    (((suscIdxList S).map (fun i => S.getD i default)).filter
        (fun a => decide (distLe a ag d))).map (fun a => (ag, a))

theorem agentTick_comp_eq_future (r : TickRand) (s : AgentState) :
    (agentTick r s).compartment = (agentTick r s).future_compartment := by
  simp only [agentTick]

theorem agentTick_compartment (r : TickRand) (s : AgentState) :
    (agentTick r s).compartment =
      (tickTransition r.deathU s).future_compartment := by
  simp only [agentTick]
  split_ifs <;> rfl

theorem agentTick_future (r : TickRand) (s : AgentState) :
    (agentTick r s).future_compartment =
      (tickTransition r.deathU s).future_compartment := by
  simp only [agentTick]
  split_ifs <;> rfl

theorem agentTick_isolating (r : TickRand) (s : AgentState) :
    (agentTick r s).is_isolating = (tickTransition r.deathU s).is_isolating := by
  simp only [agentTick]
  split_ifs <;> rfl

theorem agentTick_asymptomatic (r : TickRand) (s : AgentState) :
    (agentTick r s).is_asymptomatic =
      (tickTransition r.deathU s).is_asymptomatic := by
  simp only [agentTick]
  split_ifs <;> rfl

theorem agentTick_tbs (r : TickRand) (s : AgentState) :
    (agentTick r s).ticks_before_symptomatic =
      (tickTransition r.deathU s).ticks_before_symptomatic := by
  simp only [agentTick]
  split_ifs <;> rfl

theorem agentTick_tbi (r : TickRand) (s : AgentState) :
    (agentTick r s).ticks_before_infectious =
      (tickTransition r.deathU s).ticks_before_infectious := by
  simp only [agentTick]
  split_ifs <;> rfl

theorem agentTick_til (r : TickRand) (s : AgentState) :
    (agentTick r s).ticks_infectious_left =
      (tickTransition r.deathU s).ticks_infectious_left := by
  simp only [agentTick]
  split_ifs <;> rfl

theorem agentTick_should (r : TickRand) (s : AgentState) :
    (agentTick r s).should_isolate =
      (tickTransition r.deathU s).should_isolate := by
  simp only [agentTick]
  split_ifs <;> rfl

theorem agentTick_mask (r : TickRand) (s : AgentState) :
    (agentTick r s).has_mask = (tickTransition r.deathU s).has_mask := by
  simp only [agentTick]
  split_ifs <;> rfl

theorem agentTick_num (r : TickRand) (s : AgentState) :
    (agentTick r s).num_infections =
      (tickTransition r.deathU s).num_infections := by
  simp only [agentTick]
  split_ifs <;> rfl

theorem tickTransition_immunity (d : ℚ) (s : AgentState) :
    (tickTransition d s).immunity_ticks_left = s.immunity_ticks_left := by
  cases hc : s.compartment <;> simp only [tickTransition, hc] <;> split_ifs <;> rfl

theorem tickTransition_mask (d : ℚ) (s : AgentState) :
    (tickTransition d s).has_mask = s.has_mask := by
  cases hc : s.compartment <;> simp only [tickTransition, hc] <;> split_ifs <;> rfl

theorem tickTransition_should (d : ℚ) (s : AgentState) :
    (tickTransition d s).should_isolate = s.should_isolate := by
  cases hc : s.compartment <;> simp only [tickTransition, hc] <;> split_ifs <;> rfl

theorem tickTransition_num (d : ℚ) (s : AgentState) :
    (tickTransition d s).num_infections = s.num_infections := by
  cases hc : s.compartment <;> simp only [tickTransition, hc] <;> split_ifs <;> rfl

theorem tickTransition_asymptomatic (d : ℚ) (s : AgentState) :
    (tickTransition d s).is_asymptomatic = s.is_asymptomatic := by
  cases hc : s.compartment <;> simp only [tickTransition, hc] <;> split_ifs <;> rfl

theorem tickTransition_compartment (d : ℚ) (s : AgentState) :
    (tickTransition d s).compartment = s.compartment := by
  cases hc : s.compartment <;> simp only [tickTransition, hc] <;> split_ifs <;>
    first
    | rfl
    | exact hc

theorem agentTick_immunity (r : TickRand) (s : AgentState) :
    (agentTick r s).immunity_ticks_left =
      if 0 < s.immunity_ticks_left then s.immunity_ticks_left - 1
      else s.immunity_ticks_left := by
  have h := tickTransition_immunity r.deathU s
  simp only [agentTick]
  split_ifs <;> simp_all

theorem agentContact_of_future_ne (r : ContactRand) (s : AgentState)
    (h : s.future_compartment ≠ Compartment.SUSCEPTIBLE) :
    agentContact r s = s := by
  unfold agentContact
  rw [if_neg h]

theorem agentContact_of_fail (r : ContactRand) (s : AgentState)
    (h : ¬ r.transmitU < transmissionProb s) :
    agentContact r s = s := by
  unfold agentContact
  split_ifs <;> rfl

theorem agentContact_of_success (r : ContactRand) (s : AgentState)
    (hf : s.future_compartment = Compartment.SUSCEPTIBLE)
    (ht : r.transmitU < transmissionProb s) :
    agentContact r s =
      { s with
        num_infections := s.num_infections + 1
        immunity_ticks_left := TICKS_IMMUNE
        is_asymptomatic :=
          if r.asymptU < ASYMPTOMATIC_PROBABILITY then true else false
        ticks_before_symptomatic := r.incubation
        ticks_before_infectious :=
          r.incubation - TICKS_INFECTIOUS_BEFORE_SYMPTOMATIC
        future_compartment :=
          if r.incubation - TICKS_INFECTIOUS_BEFORE_SYMPTOMATIC ≤ 0 then
            Compartment.INFECTIOUS
          else Compartment.EXPOSED } := by
  unfold agentContact
  rw [if_pos hf, if_pos ht]

theorem agentInv_contact (r : ContactRand) (s : AgentState) (h : AgentInv s) :
    AgentInv (agentContact r s) := by
  obtain ⟨h1, h2, h3⟩ := h
  by_cases hf : s.future_compartment = Compartment.SUSCEPTIBLE
  · by_cases ht : r.transmitU < transmissionProb s
    · have hcomp : s.compartment = Compartment.SUSCEPTIBLE := by
        rcases h1 with h | ⟨h, _⟩
        · rw [h, hf]
        · exact h
      have hiso : s.is_isolating = false := by
        cases hb : s.is_isolating
        · rfl
        · have h4 := (h2 hb).1
          rw [hcomp] at h4
          exact absurd h4 (by simp)
      rw [agentContact_of_success r s hf ht]
      refine ⟨Or.inr ⟨hcomp, ?_⟩, ?_, ?_⟩
      · dsimp only
        split_ifs <;> simp
      · intro hi
        dsimp only at hi
        rw [hiso] at hi
        exact absurd hi (by simp)
      · show (0 : ℤ) ≤ TICKS_IMMUNE
        norm_num [TICKS_IMMUNE, TICKS_PER_DAY]
    · rw [agentContact_of_fail r s ht]
      exact ⟨h1, h2, h3⟩
  · rw [agentContact_of_future_ne r s hf]
    exact ⟨h1, h2, h3⟩

theorem tickTransition_iso (d : ℚ) (s : AgentState) (h : AgentInv s) :
    (tickTransition d s).is_isolating = true →
      (tickTransition d s).future_compartment = Compartment.INFECTIOUS ∧
        (tickTransition d s).is_asymptomatic = false := by
  obtain ⟨h1, h2, h3⟩ := h
  cases hc : s.compartment
  case INFECTIOUS =>
    have hfut : s.future_compartment = Compartment.INFECTIOUS := by
      rcases h1 with h | ⟨h, _⟩
      · rw [← h, hc]
      · rw [hc] at h
        exact absurd h (by simp)
    simp only [tickTransition, hc]
    split_ifs with c1 c2 c3 c4 c5
    · have hb := c2
      simp only [Bool.and_eq_true, Bool.not_eq_true'] at hb
      intro hi
      exact ⟨hfut, hb.2⟩
    · intro hi
      exact ⟨hfut, (h2 hi).2⟩
    · intro hi
      exact absurd hi (by simp)
    · intro hi
      exact absurd hi (by simp)
    · intro hi
      exact ⟨hfut, (h2 hi).2⟩
    · intro hi
      exact ⟨hfut, (h2 hi).2⟩
  all_goals
    (simp only [tickTransition, hc]
     (try split_ifs) <;> intro hi <;>
       exact absurd ((h2 hi).1.symm.trans hc) (by simp))

theorem agentInv_tick (r : TickRand) (s : AgentState) (h : AgentInv s) :
    AgentInv (agentTick r s) := by
  refine ⟨Or.inl (agentTick_comp_eq_future r s), ?_, ?_⟩
  · intro hi
    rw [agentTick_isolating] at hi
    rw [agentTick_compartment, agentTick_asymptomatic]
    exact tickTransition_iso r.deathU s ⟨h.1, h.2.1, h.2.2⟩ hi
  · rw [agentTick_immunity]
    have h3 := h.2.2
    split_ifs <;> omega

theorem reachable_inv (s : AgentState) (h : Reachable s) : AgentInv s := by
  induction h with
  | init x y m i inf =>
    cases inf <;> simp [agentInit, AgentInv, TICKS_IMMUNE, TICKS_PER_DAY]
  | tick s r _ _ ih => exact agentInv_tick r s ih
  | contact s r _ _ ih => exact agentInv_contact r s ih

theorem tickTransition_deceased (d : ℚ) (s : AgentState)
    (hc : s.compartment = Compartment.DECEASED) : tickTransition d s = s := by
  simp only [tickTransition, hc]

theorem tickTransition_exp_count (d : ℚ) (s : AgentState)
    (hc : s.compartment = Compartment.EXPOSED)
    (h : s.ticks_before_infectious - 1 ≠ 0) :
    tickTransition d s =
      { s with
        ticks_before_infectious := s.ticks_before_infectious - 1
        ticks_before_symptomatic := s.ticks_before_symptomatic - 1 } := by
  simp only [tickTransition, hc]
  rw [if_neg h]

theorem tickTransition_exp_stage (d : ℚ) (s : AgentState)
    (hc : s.compartment = Compartment.EXPOSED)
    (h : s.ticks_before_infectious - 1 = 0) :
    tickTransition d s =
      { s with
        ticks_before_infectious := s.ticks_before_infectious - 1
        ticks_before_symptomatic := s.ticks_before_symptomatic - 1
        future_compartment := Compartment.INFECTIOUS } := by
  simp only [tickTransition, hc]
  rw [if_pos h]

theorem tickTransition_inf_count (d : ℚ) (s : AgentState)
    (hc : s.compartment = Compartment.INFECTIOUS)
    (h : 0 < s.ticks_before_symptomatic - 1) :
    tickTransition d s =
      { s with ticks_before_symptomatic := s.ticks_before_symptomatic - 1 } := by
  simp only [tickTransition, hc]
  rw [if_neg (by omega), if_neg (by omega)]

theorem tickTransition_inf_onset (d : ℚ) (s : AgentState)
    (hc : s.compartment = Compartment.INFECTIOUS)
    (h : s.ticks_before_symptomatic - 1 = 0) :
    tickTransition d s =
      if s.should_isolate && !s.is_asymptomatic then
        { s with
          ticks_before_symptomatic := s.ticks_before_symptomatic - 1
          ticks_infectious_left := TICKS_INFECTIOUS_AFTER_SYMPTOMATIC
          is_isolating := true }
      else
        { s with
          ticks_before_symptomatic := s.ticks_before_symptomatic - 1
          ticks_infectious_left := TICKS_INFECTIOUS_AFTER_SYMPTOMATIC } := by
  simp only [tickTransition, hc]
  rw [if_pos h]

theorem tickTransition_inf_post (d : ℚ) (s : AgentState)
    (hc : s.compartment = Compartment.INFECTIOUS)
    (h1 : s.ticks_before_symptomatic - 1 < 0)
    (h2 : s.ticks_infectious_left - 1 ≠ 0) :
    tickTransition d s =
      { s with
        ticks_before_symptomatic := s.ticks_before_symptomatic - 1
        ticks_infectious_left := s.ticks_infectious_left - 1 } := by
  simp only [tickTransition, hc]
  rw [if_neg (by omega), if_pos h1, if_neg h2]

theorem tickTransition_inf_death (d : ℚ) (s : AgentState)
    (hc : s.compartment = Compartment.INFECTIOUS)
    (h1 : s.ticks_before_symptomatic - 1 < 0)
    (h2 : s.ticks_infectious_left - 1 = 0)
    (h3 : d < CHANCE_OF_DEATH) :
    tickTransition d s =
      { s with
        ticks_before_symptomatic := s.ticks_before_symptomatic - 1
        ticks_infectious_left := s.ticks_infectious_left - 1
        is_isolating := false
        future_compartment := Compartment.DECEASED } := by
  simp only [tickTransition, hc]
  rw [if_neg (by omega), if_pos h1, if_pos h2, if_pos h3]
/-- An infectious agent strictly before symptom onset: one tick only
decrements the symptom countdown. -/
theorem agentTick_inf_count (r : TickRand) (s : AgentState)
    (hc : s.compartment = Compartment.INFECTIOUS)
    (hf : s.future_compartment = Compartment.INFECTIOUS)
    (h : 0 < s.ticks_before_symptomatic - 1) :
    (agentTick r s).compartment = Compartment.INFECTIOUS ∧
      (agentTick r s).future_compartment = Compartment.INFECTIOUS ∧
      (agentTick r s).is_isolating = s.is_isolating ∧
      (agentTick r s).ticks_before_symptomatic = s.ticks_before_symptomatic - 1 ∧
      (agentTick r s).is_asymptomatic = s.is_asymptomatic ∧
      (agentTick r s).should_isolate = s.should_isolate := by
  have ht := tickTransition_inf_count r.deathU s hc h
  refine ⟨?_, ?_, ?_, ?_, ?_, ?_⟩
  · rw [agentTick_compartment, ht]
    exact hf
  · rw [agentTick_future, ht]
    exact hf
  · rw [agentTick_isolating, ht]
  · rw [agentTick_tbs, ht]
  · rw [agentTick_asymptomatic, ht]
  · rw [agentTick_should, ht]

/-- An infectious agent at symptom onset: one tick loads the infectious-after-
symptomatic countdown and starts isolation exactly when the agent opted in
and the case is not asymptomatic. -/
theorem agentTick_inf_onset (r : TickRand) (s : AgentState)
    (hc : s.compartment = Compartment.INFECTIOUS)
    (hf : s.future_compartment = Compartment.INFECTIOUS)
    (hi : s.is_isolating = false)
    (h : s.ticks_before_symptomatic - 1 = 0) :
    (agentTick r s).compartment = Compartment.INFECTIOUS ∧
      (agentTick r s).future_compartment = Compartment.INFECTIOUS ∧
      (agentTick r s).is_isolating = (s.should_isolate && !s.is_asymptomatic) ∧
      (agentTick r s).ticks_before_symptomatic = 0 ∧
      (agentTick r s).ticks_infectious_left =
        TICKS_INFECTIOUS_AFTER_SYMPTOMATIC ∧
      (agentTick r s).is_asymptomatic = s.is_asymptomatic ∧
      (agentTick r s).should_isolate = s.should_isolate := by
  have ht := tickTransition_inf_onset r.deathU s hc h
  by_cases hb : (s.should_isolate && !s.is_asymptomatic) = true
  · rw [if_pos hb] at ht
    refine ⟨?_, ?_, ?_, ?_, ?_, ?_, ?_⟩
    · rw [agentTick_compartment, ht]
      exact hf
    · rw [agentTick_future, ht]
      exact hf
    · rw [agentTick_isolating, ht, hb]
    · rw [agentTick_tbs, ht]
      exact h
    · rw [agentTick_til, ht]
    · rw [agentTick_asymptomatic, ht]
    · rw [agentTick_should, ht]
  · rw [if_neg hb] at ht
    refine ⟨?_, ?_, ?_, ?_, ?_, ?_, ?_⟩
    · rw [agentTick_compartment, ht]
      exact hf
    · rw [agentTick_future, ht]
      exact hf
    · have hb2 : (s.should_isolate && !s.is_asymptomatic) = false := by
        revert hb
        cases s.should_isolate && !s.is_asymptomatic <;> simp
      rw [agentTick_isolating, ht, hb2]
      exact hi
    · rw [agentTick_tbs, ht]
      exact h
    · rw [agentTick_til, ht]
    · rw [agentTick_asymptomatic, ht]
    · rw [agentTick_should, ht]

/-- An infectious agent strictly past symptom onset with more than one tick of
infectiousness left: one tick only decrements the countdowns. -/
theorem agentTick_inf_post (r : TickRand) (s : AgentState)
    (hc : s.compartment = Compartment.INFECTIOUS)
    (hf : s.future_compartment = Compartment.INFECTIOUS)
    (h1 : s.ticks_before_symptomatic - 1 < 0)
    (h2 : s.ticks_infectious_left - 1 ≠ 0) :
    (agentTick r s).compartment = Compartment.INFECTIOUS ∧
      (agentTick r s).future_compartment = Compartment.INFECTIOUS ∧
      (agentTick r s).ticks_before_symptomatic =
        s.ticks_before_symptomatic - 1 ∧
      (agentTick r s).ticks_infectious_left = s.ticks_infectious_left - 1 := by
  have ht := tickTransition_inf_post r.deathU s hc h1 h2
  refine ⟨?_, ?_, ?_, ?_⟩
  · rw [agentTick_compartment, ht]
    exact hf
  · rw [agentTick_future, ht]
    exact hf
  · rw [agentTick_tbs, ht]
  · rw [agentTick_til, ht]

/-- An infectious agent on its last infectious tick, when the death draw
succeeds: one tick commits the DECEASED compartment. -/
theorem agentTick_inf_death (r : TickRand) (s : AgentState)
    (hc : s.compartment = Compartment.INFECTIOUS)
    (h1 : s.ticks_before_symptomatic - 1 < 0)
    (h2 : s.ticks_infectious_left - 1 = 0)
    (h3 : r.deathU < CHANCE_OF_DEATH) :
    (agentTick r s).compartment = Compartment.DECEASED := by
  have ht := tickTransition_inf_death r.deathU s hc h1 h2 h3
  rw [agentTick_compartment, ht]

/-- Phase lemma: an infectious agent not yet isolating, n >= 1 ticks before
symptom onset, reaches onset after exactly n ticks of the same draw, loading
the infectious countdown and starting isolation exactly when opted in and not
asymptomatic. -/
theorem infTicksToOnset :
    ∀ (n : ℕ) (s : AgentState) (r : TickRand), 1 ≤ n →
      s.compartment = Compartment.INFECTIOUS →
      s.future_compartment = Compartment.INFECTIOUS →
      s.is_isolating = false →
      s.ticks_before_symptomatic = (n : ℤ) →
      ((agentTick r)^[n] s).compartment = Compartment.INFECTIOUS ∧
        ((agentTick r)^[n] s).future_compartment = Compartment.INFECTIOUS ∧
        ((agentTick r)^[n] s).is_isolating =
          (s.should_isolate && !s.is_asymptomatic) ∧
        ((agentTick r)^[n] s).ticks_before_symptomatic = 0 ∧
        ((agentTick r)^[n] s).ticks_infectious_left =
          TICKS_INFECTIOUS_AFTER_SYMPTOMATIC ∧
        ((agentTick r)^[n] s).is_asymptomatic = s.is_asymptomatic ∧
        ((agentTick r)^[n] s).should_isolate = s.should_isolate := by
  intro n
  induction n with
  | zero => intro s r h; omega
  | succ m ih =>
    intro s r _ hc hf hiso htbs
    rw [Function.iterate_succ_apply]
    by_cases hm : m = 0
    · subst hm
      have h0 : s.ticks_before_symptomatic - 1 = 0 := by
        rw [htbs]
        norm_num
      obtain ⟨k1, k2, k3, k4, k5, k6, k7⟩ :=
        agentTick_inf_onset r s hc hf hiso h0
      simpa [Function.iterate_zero_apply] using ⟨k1, k2, k3, k4, k5, k6, k7⟩
    · have hm1 : 1 ≤ m := Nat.one_le_iff_ne_zero.mpr hm
      have hpos : 0 < s.ticks_before_symptomatic - 1 := by
        rw [htbs]
        push_cast
        omega
      obtain ⟨k1, k2, k3, k4, k5, k6⟩ := agentTick_inf_count r s hc hf hpos
      have htbs2 : (agentTick r s).ticks_before_symptomatic = (m : ℤ) := by
        rw [k4, htbs]
        push_cast
        ring
      obtain ⟨j1, j2, j3, j4, j5, j6, j7⟩ :=
        ih (agentTick r s) r hm1 k1 k2 (k3.trans hiso) htbs2
      refine ⟨j1, j2, ?_, j4, j5, ?_, ?_⟩
      · rw [j3, k5, k6]
      · rw [j6, k5]
      · rw [j7, k6]

/-- Phase lemma: an infectious agent past symptom onset with m >= 1 ticks of
infectiousness left is committed to DECEASED after exactly m ticks of a draw
whose death sample succeeds each time. -/
theorem infTicksToDeath :
    ∀ (m : ℕ) (s : AgentState) (r : TickRand), 1 ≤ m →
      r.deathU < CHANCE_OF_DEATH →
      s.compartment = Compartment.INFECTIOUS →
      s.future_compartment = Compartment.INFECTIOUS →
      s.ticks_before_symptomatic ≤ 0 →
      s.ticks_infectious_left = (m : ℤ) →
      ((agentTick r)^[m] s).compartment = Compartment.DECEASED := by
  intro m
  induction m with
  | zero => intro s r h; omega
  | succ k ih =>
    intro s r _ hd hc hf htbs htil
    rw [Function.iterate_succ_apply]
    by_cases hk : k = 0
    · subst hk
      have h2 : s.ticks_infectious_left - 1 = 0 := by
        rw [htil]
        norm_num
      have h1 : s.ticks_before_symptomatic - 1 < 0 := by omega
      have hdead := agentTick_inf_death r s hc h1 h2 hd
      simpa [Function.iterate_zero_apply] using hdead
    · have hk1 : 1 ≤ k := Nat.one_le_iff_ne_zero.mpr hk
      have h1 : s.ticks_before_symptomatic - 1 < 0 := by omega
      have h2 : s.ticks_infectious_left - 1 ≠ 0 := by
        rw [htil]
        push_cast
        omega
      obtain ⟨k1, k2, k3, k4⟩ := agentTick_inf_post r s hc hf h1 h2
      have htil2 : (agentTick r s).ticks_infectious_left = (k : ℤ) := by
        rw [k4, htil]
        push_cast
        ring
      exact ih (agentTick r s) r hk1 hd k1 k2 (by omega) htil2
/-- An exposed agent with more than one tick before infectiousness: one tick
only decrements the countdowns. -/
theorem agentTick_exp_count (r : TickRand) (s : AgentState)
    (hc : s.compartment = Compartment.EXPOSED)
    (hf : s.future_compartment = Compartment.EXPOSED)
    (h : s.ticks_before_infectious - 1 ≠ 0) :
    (agentTick r s).compartment = Compartment.EXPOSED ∧
      (agentTick r s).future_compartment = Compartment.EXPOSED ∧
      (agentTick r s).ticks_before_infectious =
        s.ticks_before_infectious - 1 := by
  have ht := tickTransition_exp_count r.deathU s hc h
  refine ⟨?_, ?_, ?_⟩
  · rw [agentTick_compartment, ht]
    exact hf
  · rw [agentTick_future, ht]
    exact hf
  · rw [agentTick_tbi, ht]

/-- An exposed agent whose infectiousness countdown reaches exactly zero this
tick commits the INFECTIOUS compartment at the end of the same tick. -/
theorem agentTick_exp_stage (r : TickRand) (s : AgentState)
    (hc : s.compartment = Compartment.EXPOSED)
    (h : s.ticks_before_infectious - 1 = 0) :
    (agentTick r s).compartment = Compartment.INFECTIOUS := by
  have ht := tickTransition_exp_stage r.deathU s hc h
  rw [agentTick_compartment, ht]

/-- Countdown lemma for exposed agents: with ticks-before-infectious equal to
k >= 1, fewer than k ticks leave the agent EXPOSED and exactly k ticks leave
it INFECTIOUS. -/
theorem exposedCountdown :
    ∀ (rs : List TickRand) (s : AgentState) (k : ℕ), 1 ≤ k →
      s.compartment = Compartment.EXPOSED →
      s.future_compartment = Compartment.EXPOSED →
      s.ticks_before_infectious = (k : ℤ) →
      (rs.length < k → (tickRun rs s).compartment = Compartment.EXPOSED) ∧
        (rs.length = k → (tickRun rs s).compartment = Compartment.INFECTIOUS) := by
  intro rs
  induction rs with
  | nil =>
    intro s k hk hc hf ht
    refine ⟨fun _ => hc, fun h0 => ?_⟩
    rw [List.length_nil] at h0
    omega
  | cons r rest ih =>
    intro s k hk hc hf ht
    have hrun : tickRun (r :: rest) s = tickRun rest (agentTick r s) := rfl
    by_cases hk1 : k = 1
    · subst hk1
      have h0 : s.ticks_before_infectious - 1 = 0 := by
        rw [ht]
        norm_num
      have hstage := agentTick_exp_stage r s hc h0
      constructor
      · intro hl
        simp at hl
      · intro hl
        have hrest : rest = [] := by
          rw [List.length_cons] at hl
          exact List.eq_nil_of_length_eq_zero (by omega)
        rw [hrun, hrest]
        exact hstage
    · have hk2 : 2 ≤ k := by omega
      have hne : s.ticks_before_infectious - 1 ≠ 0 := by
        rw [ht]
        omega
      obtain ⟨k1, k2, k3⟩ := agentTick_exp_count r s hc hf hne
      have ht2 : (agentTick r s).ticks_before_infectious = ((k - 1 : ℕ) : ℤ) := by
        rw [k3, ht]
        push_cast [Nat.cast_sub (by omega : 1 ≤ k)]
        ring
      obtain ⟨j1, j2⟩ := ih (agentTick r s) (k - 1) (by omega) k1 k2 ht2
      rw [hrun]
      constructor
      · intro hl
        rw [List.length_cons] at hl
        exact j1 (by omega)
      · intro hl
        rw [List.length_cons] at hl
        exact j2 (by omega)

/-- A deceased agent with a deceased staged compartment stays deceased with a
deceased staged compartment under any tick or contact. -/
theorem deceased_step (st : AStep) (s : AgentState)
    (hc : s.compartment = Compartment.DECEASED)
    (hf : s.future_compartment = Compartment.DECEASED) :
    (applyStep st s).compartment = Compartment.DECEASED ∧
      (applyStep st s).future_compartment = Compartment.DECEASED := by
  cases st with
  | tickS r =>
    have ht := tickTransition_deceased r.deathU s hc
    constructor
    · rw [applyStep, agentTick_compartment, ht]
      exact hf
    · rw [applyStep, agentTick_future, ht]
      exact hf
  | contactS r =>
    have hne : s.future_compartment ≠ Compartment.SUSCEPTIBLE := by
      rw [hf]
      simp
    rw [applyStep, agentContact_of_future_ne r s hne]
    exact ⟨hc, hf⟩

/-- A deceased agent with a deceased staged compartment stays deceased under
any sequence of ticks and contacts. -/
theorem deceased_run :
    ∀ (l : List AStep) (s : AgentState),
      s.compartment = Compartment.DECEASED →
      s.future_compartment = Compartment.DECEASED →
      (runSteps l s).compartment = Compartment.DECEASED := by
  intro l
  induction l with
  | nil => intro s hc _; exact hc
  | cons st rest ih =>
    intro s hc hf
    obtain ⟨h1, h2⟩ := deceased_step st s hc hf
    exact ih (applyStep st s) h1 h2

/-- Reachability is preserved by iterating a valid tick draw. -/
theorem reachable_iterate (s : AgentState) (r : TickRand) (hr : r.Valid) :
    ∀ (n : ℕ), Reachable s → Reachable ((agentTick r)^[n] s) := by
  intro n
  induction n with
  | zero => intro h; exact h
  | succ m ih =>
    intro h
    rw [Function.iterate_succ_apply']
    exact Reachable.tick _ r (ih h) hr
/-- C3: `Agent.contact` is a no-op unless the staged future compartment is
SUSCEPTIBLE; when it is and the transmission draw succeeds, the infection
counter is incremented by one, the immunity countdown is reset to
TICKS_IMMUNE, the asymptomatic flag is redrawn by an independent Bernoulli
draw, ticks-until-symptomatic is redrawn as the randint incubation sample,
ticks-until-infectious is that sample minus
TICKS_INFECTIOUS_BEFORE_SYMPTOMATIC, and the staged future compartment
becomes INFECTIOUS when that difference is at most 0 and EXPOSED otherwise. -/
theorem claim_C3 (r : ContactRand) (s : AgentState) :
    (s.future_compartment ≠ Compartment.SUSCEPTIBLE → agentContact r s = s) ∧
      (s.future_compartment = Compartment.SUSCEPTIBLE →
        r.transmitU < transmissionProb s →
        agentContact r s =
          { s with
            num_infections := s.num_infections + 1
            immunity_ticks_left := TICKS_IMMUNE
            is_asymptomatic :=
              if r.asymptU < ASYMPTOMATIC_PROBABILITY then true else false
            ticks_before_symptomatic := r.incubation
            ticks_before_infectious :=
              r.incubation - TICKS_INFECTIOUS_BEFORE_SYMPTOMATIC
            future_compartment :=
              if r.incubation - TICKS_INFECTIOUS_BEFORE_SYMPTOMATIC ≤ 0 then
                Compartment.INFECTIOUS
              else Compartment.EXPOSED }) :=
  ⟨agentContact_of_future_ne r s, agentContact_of_success r s⟩

/-- Witness for C3 at a staged-infectious agent (no-op) and at a susceptible
agent with a succeeding transmission draw. -/
theorem claim_C3_witness :
    (agentContact ⟨0, 0, 192⟩ (agentInit 0 0 false false true) =
        agentInit 0 0 false false true) ∧
      agentContact ⟨0, 0, 192⟩ (agentInit 0 0 false false false) =
        { agentInit 0 0 false false false with
          num_infections := (agentInit 0 0 false false false).num_infections + 1
          immunity_ticks_left := TICKS_IMMUNE
          is_asymptomatic :=
            if (0 : ℚ) < ASYMPTOMATIC_PROBABILITY then true else false
          ticks_before_symptomatic := 192
          ticks_before_infectious :=
            192 - TICKS_INFECTIOUS_BEFORE_SYMPTOMATIC
          future_compartment :=
            if (192 : ℤ) - TICKS_INFECTIOUS_BEFORE_SYMPTOMATIC ≤ 0 then
              Compartment.INFECTIOUS
            else Compartment.EXPOSED } :=
  ⟨(claim_C3 ⟨0, 0, 192⟩ (agentInit 0 0 false false true)).1 (by decide),
    (claim_C3 ⟨0, 0, 192⟩ (agentInit 0 0 false false false)).2 (by decide)
      (by norm_num [transmissionProb, agentInit, INFECTION_PROBABILITY])⟩

/-- C4: once a reachable agent's compartment is DECEASED it remains DECEASED
under every later sequence of tick and contact calls. -/
theorem claim_C4 (s : AgentState) (h : Reachable s)
    (hd : s.compartment = Compartment.DECEASED) (l : List AStep) :
    (runSteps l s).compartment = Compartment.DECEASED := by
  have hf : s.future_compartment = Compartment.DECEASED := by
    rcases (reachable_inv s h).1 with h1 | ⟨h1, _⟩
    · rw [← h1, hd]
    · rw [hd] at h1
      exact absurd h1 (by simp)
  exact deceased_run l s hd hf

/-- Witness for C4: the seeded infectious agent dies after 288 + 960 ticks of
a succeeding death draw, and a further contact and tick leave it DECEASED. -/
theorem claim_C4_witness :
    ((agentTick ⟨1, 0, 0⟩)^[1248] (agentInit 0 0 false false true)).compartment =
        Compartment.DECEASED ∧
      (runSteps [AStep.contactS ⟨0, 0, 192⟩, AStep.tickS ⟨1, 0, 0⟩]
          ((agentTick ⟨1, 0, 0⟩)^[1248]
            (agentInit 0 0 false false true))).compartment =
        Compartment.DECEASED := by
  have hreach : Reachable
      ((agentTick ⟨1, 0, 0⟩)^[1248] (agentInit 0 0 false false true)) :=
    reachable_iterate (agentInit 0 0 false false true) ⟨1, 0, 0⟩
      (by refine ⟨?_, ?_, ?_⟩ <;> norm_num [TickRand.Valid]) 1248
      (Reachable.init 0 0 false false true)
  obtain ⟨k1, k2, k3, k4, k5, k6, k7⟩ :=
    infTicksToOnset 288 (agentInit 0 0 false false true) ⟨1, 0, 0⟩
      (by norm_num) (by decide) (by decide) (by decide) (by decide)
  have h2 := infTicksToDeath 960
    ((agentTick ⟨1, 0, 0⟩)^[288] (agentInit 0 0 false false true)) ⟨1, 0, 0⟩
    (by norm_num) (by norm_num [CHANCE_OF_DEATH]) k1 k2 k4.le
    (by rw [k5]; decide)
  rw [← Function.iterate_add_apply] at h2
  rw [show (960 + 288 : ℕ) = 1248 from rfl] at h2
  exact ⟨h2, claim_C4 _ hreach h2
    [AStep.contactS ⟨0, 0, 192⟩, AStep.tickS ⟨1, 0, 0⟩]⟩

/-- C5: a reachable agent with an asymptomatic case is never isolating, even
when it opted into isolation. -/
theorem claim_C5 (s : AgentState) (h : Reachable s)
    (ha : s.is_asymptomatic = true) : s.is_isolating = false := by
  cases hb : s.is_isolating
  · rfl
  · have h4 := (reachable_inv s h).2.1 hb
    rw [ha] at h4
    exact absurd h4.2 (by simp)

/-- Witness for C5 at the seeded infectious agent, which is asymptomatic and
opted into isolation. -/
theorem claim_C5_witness :
    Reachable (agentInit 0 0 false true true) ∧
      (agentInit 0 0 false true true).is_asymptomatic = true ∧
      (agentInit 0 0 false true true).is_isolating = false :=
  ⟨Reachable.init 0 0 false true true, by decide,
    claim_C5 (agentInit 0 0 false true true)
      (Reachable.init 0 0 false true true) (by decide)⟩
/-- C6: a reachable EXPOSED agent with ticks-until-infectious k >= 1 is still
EXPOSED after fewer than k uninterrupted ticks and INFECTIOUS after exactly
k: the transition is staged on the tick where the counter reaches zero and
committed at the end of that same tick. -/
theorem claim_C6 (s : AgentState) (h : Reachable s) (k : ℕ) (hk : 1 ≤ k)
    (hc : s.compartment = Compartment.EXPOSED)
    (ht : s.ticks_before_infectious = (k : ℤ)) (rs : List TickRand) :
    (rs.length < k → (tickRun rs s).compartment = Compartment.EXPOSED) ∧
      (rs.length = k →
        (tickRun rs s).compartment = Compartment.INFECTIOUS) := by
  have hf : s.future_compartment = Compartment.EXPOSED := by
    rcases (reachable_inv s h).1 with h1 | ⟨h1, _⟩
    · rw [← h1, hc]
    · rw [hc] at h1
      exact absurd h1 (by simp)
  exact exposedCountdown rs s k hk hc hf ht

/-- Witness for C6 at a freshly exposed agent with one tick until
infectiousness. -/
theorem claim_C6_witness :
    Reachable (agentTick ⟨1, 0, 0⟩
        (agentContact ⟨0, 1/2, 289⟩ (agentInit 0 0 false false false))) ∧
      (agentTick ⟨1, 0, 0⟩
          (agentContact ⟨0, 1/2, 289⟩
            (agentInit 0 0 false false false))).compartment =
        Compartment.EXPOSED ∧
      (tickRun []
          (agentTick ⟨1, 0, 0⟩
            (agentContact ⟨0, 1/2, 289⟩
              (agentInit 0 0 false false false)))).compartment =
        Compartment.EXPOSED ∧
      (tickRun [⟨1, 0, 0⟩]
          (agentTick ⟨1, 0, 0⟩
            (agentContact ⟨0, 1/2, 289⟩
              (agentInit 0 0 false false false)))).compartment =
        Compartment.INFECTIOUS := by
  have hstate : agentContact ⟨0, 1/2, 289⟩ (agentInit 0 0 false false false) =
      { agentInit 0 0 false false false with
        num_infections := 1
        immunity_ticks_left := TICKS_IMMUNE
        is_asymptomatic := false
        ticks_before_symptomatic := 289
        ticks_before_infectious := 1
        future_compartment := Compartment.EXPOSED } := by
    rw [agentContact_of_success ⟨0, 1/2, 289⟩ (agentInit 0 0 false false false)
      (by decide)
      (by norm_num [transmissionProb, agentInit, INFECTION_PROBABILITY])]
    norm_num [ASYMPTOMATIC_PROBABILITY, TICKS_INFECTIOUS_BEFORE_SYMPTOMATIC,
      TICKS_PER_DAY, agentInit]
  have hr : Reachable (agentTick ⟨1, 0, 0⟩
      (agentContact ⟨0, 1/2, 289⟩ (agentInit 0 0 false false false))) :=
    Reachable.tick _ ⟨1, 0, 0⟩
      (Reachable.contact _ ⟨0, 1/2, 289⟩
        (Reachable.init 0 0 false false false)
        (by refine ⟨?_, ?_, ?_, ?_, ?_, ?_⟩ <;>
          norm_num [INCUBATION_MIN_TICKS, INCUBATION_MAX_TICKS, TICKS_PER_DAY]))
      (by refine ⟨?_, ?_, ?_⟩ <;> norm_num [TickRand.Valid])
  have hcomp : (agentTick ⟨1, 0, 0⟩
      (agentContact ⟨0, 1/2, 289⟩
        (agentInit 0 0 false false false))).compartment =
      Compartment.EXPOSED := by
    rw [hstate]
    decide
  have htbi : (agentTick ⟨1, 0, 0⟩
      (agentContact ⟨0, 1/2, 289⟩
        (agentInit 0 0 false false false))).ticks_before_infectious =
      ((1 : ℕ) : ℤ) := by
    rw [hstate]
    decide
  refine ⟨hr, hcomp, ?_, ?_⟩
  · exact (claim_C6 _ hr 1 (by norm_num) hcomp htbi []).1 (by decide)
  · exact (claim_C6 _ hr 1 (by norm_num) hcomp htbi [⟨1, 0, 0⟩]).2 (by decide)

/-- C8: every `Agent.tick` call decrements the immunity countdown by exactly
one when it is positive and leaves it unchanged when it is zero, regardless
of compartment; on reachable states the countdown is never negative. -/
theorem claim_C8 :
    (∀ (r : TickRand) (s : AgentState),
      (0 < s.immunity_ticks_left →
        (agentTick r s).immunity_ticks_left = s.immunity_ticks_left - 1) ∧
      (s.immunity_ticks_left = 0 →
        (agentTick r s).immunity_ticks_left = 0)) ∧
    ∀ (s : AgentState), Reachable s → 0 ≤ s.immunity_ticks_left := by
  constructor
  · intro r s
    constructor
    · intro h
      rw [agentTick_immunity, if_pos h]
    · intro h
      rw [agentTick_immunity, h]
      norm_num
  · intro s h
    exact (reachable_inv s h).2.2

/-- Witness for C8 at a freshly seeded infectious agent (positive countdown)
and a fresh susceptible agent (zero countdown). -/
theorem claim_C8_witness :
    0 < (agentInit 0 0 false false true).immunity_ticks_left ∧
      (agentTick ⟨1, 0, 0⟩
          (agentInit 0 0 false false true)).immunity_ticks_left =
        (agentInit 0 0 false false true).immunity_ticks_left - 1 ∧
      (agentInit 0 0 false false false).immunity_ticks_left = 0 ∧
      (agentTick ⟨1, 0, 0⟩
          (agentInit 0 0 false false false)).immunity_ticks_left = 0 ∧
      0 ≤ (agentInit 0 0 false false true).immunity_ticks_left :=
  ⟨by decide,
    (claim_C8.1 ⟨1, 0, 0⟩ (agentInit 0 0 false false true)).1 (by decide),
    by decide,
    (claim_C8.1 ⟨1, 0, 0⟩ (agentInit 0 0 false false false)).2 (by decide),
    claim_C8.2 (agentInit 0 0 false false true)
      (Reachable.init 0 0 false false true)⟩

/-- C10: a reachable isolating agent is INFECTIOUS. -/
theorem claim_C10 (s : AgentState) (h : Reachable s)
    (hi : s.is_isolating = true) : s.compartment = Compartment.INFECTIOUS :=
  ((reachable_inv s h).2.1 hi).1

/-- Witness for C10 at an agent that contracted an immediately infectious,
symptomatic case with isolation opted in and was ticked to symptom onset. -/
theorem claim_C10_witness :
    Reachable ((agentTick ⟨1, 0, 0⟩)^[192]
        (agentTick ⟨1, 0, 0⟩
          (agentContact ⟨0, 1/2, 192⟩ (agentInit 0 0 false true false)))) ∧
      ((agentTick ⟨1, 0, 0⟩)^[192]
          (agentTick ⟨1, 0, 0⟩
            (agentContact ⟨0, 1/2, 192⟩
              (agentInit 0 0 false true false)))).is_isolating = true ∧
      ((agentTick ⟨1, 0, 0⟩)^[192]
          (agentTick ⟨1, 0, 0⟩
            (agentContact ⟨0, 1/2, 192⟩
              (agentInit 0 0 false true false)))).compartment =
        Compartment.INFECTIOUS := by
  have hstate : agentContact ⟨0, 1/2, 192⟩ (agentInit 0 0 false true false) =
      { agentInit 0 0 false true false with
        num_infections := 1
        immunity_ticks_left := TICKS_IMMUNE
        is_asymptomatic := false
        ticks_before_symptomatic := 192
        ticks_before_infectious := -96
        future_compartment := Compartment.INFECTIOUS } := by
    rw [agentContact_of_success ⟨0, 1/2, 192⟩ (agentInit 0 0 false true false)
      (by decide)
      (by norm_num [transmissionProb, agentInit, INFECTION_PROBABILITY])]
    norm_num [ASYMPTOMATIC_PROBABILITY, TICKS_INFECTIOUS_BEFORE_SYMPTOMATIC,
      TICKS_PER_DAY, agentInit]
  have hr : Reachable ((agentTick ⟨1, 0, 0⟩)^[192]
      (agentTick ⟨1, 0, 0⟩
        (agentContact ⟨0, 1/2, 192⟩ (agentInit 0 0 false true false)))) :=
    reachable_iterate _ ⟨1, 0, 0⟩
      (by refine ⟨?_, ?_, ?_⟩ <;> norm_num [TickRand.Valid]) 192
      (Reachable.tick _ ⟨1, 0, 0⟩
        (Reachable.contact _ ⟨0, 1/2, 192⟩
          (Reachable.init 0 0 false true false)
          (by refine ⟨?_, ?_, ?_, ?_, ?_, ?_⟩ <;>
            norm_num [INCUBATION_MIN_TICKS, INCUBATION_MAX_TICKS,
              TICKS_PER_DAY]))
        (by refine ⟨?_, ?_, ?_⟩ <;> norm_num [TickRand.Valid]))
  obtain ⟨_, _, k3, _, _, _, _⟩ :=
    infTicksToOnset 192
      (agentTick ⟨1, 0, 0⟩
        (agentContact ⟨0, 1/2, 192⟩ (agentInit 0 0 false true false)))
      ⟨1, 0, 0⟩ (by norm_num)
      (by rw [hstate]; decide) (by rw [hstate]; decide)
      (by rw [hstate]; decide) (by rw [hstate]; decide)
  have hiso : ((agentTick ⟨1, 0, 0⟩)^[192]
      (agentTick ⟨1, 0, 0⟩
        (agentContact ⟨0, 1/2, 192⟩
          (agentInit 0 0 false true false)))).is_isolating = true := by
    rw [k3, hstate]
    decide
  exact ⟨hr, hiso, claim_C10 _ hr hiso⟩
theorem pyRound_intCast (z : ℤ) : pyRound (z : ℚ) = z := by
  unfold pyRound
  rw [Int.fract_intCast, Int.floor_intCast]
  norm_num

theorem pyRound_int_add_half (z : ℤ) :
    pyRound ((z : ℚ) + 1 / 2) = if 2 ∣ z then z else z + 1 := by
  have hfr : Int.fract ((z : ℚ) + 1 / 2) = 1 / 2 := by
    rw [Int.fract_int_add, Int.fract]
    norm_num
  have hfl : ⌊(z : ℚ) + 1 / 2⌋ = z := by
    rw [Int.floor_int_add]
    norm_num
  unfold pyRound
  rw [hfr, hfl]
  norm_num

theorem pyRound_nonneg (q : ℚ) (h : 0 ≤ q) : 0 ≤ pyRound q := by
  have hfl : 0 ≤ ⌊q⌋ := Int.floor_nonneg.mpr h
  unfold pyRound
  split_ifs <;> omega

theorem pyRound_le_of_le (q : ℚ) (z : ℤ) (h : q ≤ (z : ℚ)) : pyRound q ≤ z := by
  have hfl : ⌊q⌋ ≤ z := by
    have := Int.floor_le_floor h
    rwa [Int.floor_intCast] at this
  have hstrict : Int.fract q ≠ 0 → ⌊q⌋ < z := by
    intro hf
    rcases lt_or_eq_of_le hfl with h1 | h1
    · exact h1
    · exfalso
      apply hf
      have : (⌊q⌋ : ℚ) ≤ q := Int.floor_le q
      rw [h1] at this
      have : q = (z : ℚ) := le_antisymm h this
      rw [this, ← h1]
      simp [Int.fract_intCast, h1]
  unfold pyRound
  split_ifs with c1 c2 c3
  · exact hfl
  · have h2 : Int.fract q ≠ 0 := by
      intro h0
      rw [h0] at c2
      norm_num at c2
    have := hstrict h2
    omega
  · exact hfl
  · have h2 : Int.fract q ≠ 0 := by
      intro h0
      rw [h0] at c1
      norm_num at c1
    have := hstrict h2
    omega

theorem pyRound_eq_of_intCast (q : ℚ) (z : ℤ) (h : q = (z : ℚ)) :
    pyRound q = z := by
  rw [h, pyRound_intCast]
theorem agentInit_compartment (x y : ℚ) (m i inf : Bool) :
    (agentInit x y m i inf).compartment =
      if inf then Compartment.INFECTIOUS else Compartment.SUSCEPTIBLE := by
  cases inf <;> simp [agentInit]

theorem agentInit_num (x y : ℚ) (m i inf : Bool) :
    (agentInit x y m i inf).num_infections = if inf then 1 else 0 := by
  cases inf <;> simp [agentInit]

theorem agentInit_asymptomatic (x y : ℚ) (m i inf : Bool) :
    (agentInit x y m i inf).is_asymptomatic = inf := by
  cases inf <;> simp [agentInit]

theorem agentInit_mask (x y : ℚ) (m i inf : Bool) :
    (agentInit x y m i inf).has_mask = m := by
  cases inf <;> simp [agentInit]

theorem agentInit_should (x y : ℚ) (m i inf : Bool) :
    (agentInit x y m i inf).should_isolate = i := by
  cases inf <;> simp [agentInit]

theorem agentInit_x (x y : ℚ) (m i inf : Bool) : (agentInit x y m i inf).x = x := by
  cases inf <;> simp [agentInit]

theorem agentInit_y (x y : ℚ) (m i inf : Bool) : (agentInit x y m i inf).y = y := by
  cases inf <;> simp [agentInit]

theorem mkModel_length (g : ℕ) (days : ℤ) (maskL isoL : List Bool) (dist : ℚ) :
    (mkModel g days maskL isoL dist).agents.length = g * g := by
  simp [mkModel]

theorem mkModel_agent (g : ℕ) (days : ℤ) (maskL isoL : List Bool) (dist : ℚ)
    (i : ℕ) (h : i < g * g) :
    (mkModel g days maskL isoL dist).agents.getD i default =
      agentInit
        (dist * ((2 * ((i : ℤ) % (g : ℤ)) - ((g : ℤ) - 1) : ℤ) : ℚ))
        (dist * ((2 * ((i : ℤ) / (g : ℤ)) - ((g : ℤ) - 1) : ℤ) : ℚ))
        (maskL.getD i false) (isoL.getD i false)
        (decide ((i : ℤ) = infectiousAgentIndex g)) := by
  rw [List.getD_eq_getElem?_getD]
  simp only [mkModel]
  rw [List.getElem?_map, List.getElem?_range h]
  simp
theorem map_getD_range {α : Type} (l : List α) (d : α) :
    (List.range l.length).map (fun i => l.getD i d) = l := by
  apply List.ext_getElem
  · simp
  · intro i h1 h2
    simp only [List.getElem_map, List.getElem_range]
    rw [List.getD_eq_getElem?_getD, List.getElem?_eq_getElem h2]
    rfl

theorem countP_getD_range (l : List Bool) :
    (List.range l.length).countP (fun i => l.getD i false) = l.countP id := by
  conv_rhs => rw [← map_getD_range l false]
  rw [List.countP_map]
  rfl

theorem countP_range_int_lt (n : ℕ) (m : ℤ) :
    (List.range n).countP (fun (i : ℕ) => if (i : ℤ) < m then true else false) =
      min m.toNat n := by
  induction n with
  | zero => simp
  | succ k ih =>
    rw [List.range_succ, List.countP_append, ih]
    by_cases hc : (k : ℤ) < m <;> simp [List.countP_cons, hc] <;> omega

theorem baseAssignList_length (m : ℤ) (n : ℕ) :
    (baseAssignList m n).length = n := by
  simp [baseAssignList]

theorem baseAssignList_countP (m : ℤ) (n : ℕ) :
    (baseAssignList m n).countP id = min m.toNat n := by
  rw [baseAssignList, List.countP_map, ← countP_range_int_lt n m]
  rfl

theorem numFromPercent_nonneg (p : ℚ) (n : ℕ) (h : 0 ≤ p) :
    0 ≤ numFromPercent p n := by
  apply pyRound_nonneg
  positivity

theorem numFromPercent_le (p : ℚ) (n : ℕ) (h : p ≤ 100) :
    numFromPercent p n ≤ (n : ℤ) := by
  apply pyRound_le_of_le
  have h1 : p / 100 ≤ 1 := (div_le_one (by norm_num : (0:ℚ) < 100)).mpr h
  calc p / 100 * (n : ℚ) ≤ 1 * (n : ℚ) :=
        mul_le_mul_of_nonneg_right h1 (by positivity)
    _ = ((n : ℤ) : ℚ) := by push_cast; ring
/-- The count of agents satisfying a boolean field of the constructor's
per-index assignment list. -/
theorem mkModel_countP_mask (g : ℕ) (days : ℤ) (maskL isoL : List Bool)
    (dist : ℚ) (hlen : maskL.length = g * g) :
    (mkModel g days maskL isoL dist).agents.countP (fun a => a.has_mask) =
      maskL.countP id := by
  simp only [mkModel]
  rw [List.countP_map]
  have hfun : ((fun a => a.has_mask) ∘ fun (i : ℕ) =>
      agentInit
        (dist * ((2 * ((i : ℤ) % (g : ℤ)) - ((g : ℤ) - 1) : ℤ) : ℚ))
        (dist * ((2 * ((i : ℤ) / (g : ℤ)) - ((g : ℤ) - 1) : ℤ) : ℚ))
        (maskL.getD i false) (isoL.getD i false)
        (decide ((i : ℤ) = infectiousAgentIndex g))) =
      fun i => maskL.getD i false := by
    funext i
    exact agentInit_mask _ _ _ _ _
  rw [hfun, ← hlen, countP_getD_range]

theorem mkModel_countP_iso (g : ℕ) (days : ℤ) (maskL isoL : List Bool)
    (dist : ℚ) (hlen : isoL.length = g * g) :
    (mkModel g days maskL isoL dist).agents.countP (fun a => a.should_isolate) =
      isoL.countP id := by
  simp only [mkModel]
  rw [List.countP_map]
  have hfun : ((fun a => a.should_isolate) ∘ fun (i : ℕ) =>
      agentInit
        (dist * ((2 * ((i : ℤ) % (g : ℤ)) - ((g : ℤ) - 1) : ℤ) : ℚ))
        (dist * ((2 * ((i : ℤ) / (g : ℤ)) - ((g : ℤ) - 1) : ℤ) : ℚ))
        (maskL.getD i false) (isoL.getD i false)
        (decide ((i : ℤ) = infectiousAgentIndex g))) =
      fun i => isoL.getD i false := by
    funext i
    exact agentInit_should _ _ _ _ _
  rw [hfun, ← hlen, countP_getD_range]

/-- C9: for percentages in [0, 100], the constructor yields exactly
round(p/100 * g^2) agents wearing masks and round(q/100 * g^2) agents opting
into isolation, for every outcome of the two shuffles (modelled as arbitrary
permutations of the unshuffled assignment lists). -/
theorem claim_C9 (g : ℕ) (_hg : 0 < g) (days : ℤ) (dist : ℚ) (pM pI : ℚ)
    (hpM0 : 0 ≤ pM) (hpM1 : pM ≤ 100) (hpI0 : 0 ≤ pI) (hpI1 : pI ≤ 100)
    (maskL isoL : List Bool)
    (hm : maskL.Perm (baseAssignList (numFromPercent pM (g * g)) (g * g)))
    (hi : isoL.Perm (baseAssignList (numFromPercent pI (g * g)) (g * g))) :
    (mkModel g days maskL isoL dist).agents.countP (fun a => a.has_mask) =
        (numFromPercent pM (g * g)).toNat ∧
      (mkModel g days maskL isoL dist).agents.countP
          (fun a => a.should_isolate) =
        (numFromPercent pI (g * g)).toNat := by
  have hmin : ∀ p : ℚ, 0 ≤ p → p ≤ 100 →
      min (numFromPercent p (g * g)).toNat (g * g) =
        (numFromPercent p (g * g)).toNat := by
    intro p h0 h1
    have hle := numFromPercent_le p (g * g) h1
    have : (numFromPercent p (g * g)).toNat ≤ g * g := by omega
    omega
  constructor
  · rw [mkModel_countP_mask g days maskL isoL dist
      (hm.length_eq.trans (baseAssignList_length _ _)),
      hm.countP_eq id, baseAssignList_countP, hmin pM hpM0 hpM1]
  · rw [mkModel_countP_iso g days maskL isoL dist
      (hi.length_eq.trans (baseAssignList_length _ _)),
      hi.countP_eq id, baseAssignList_countP, hmin pI hpI0 hpI1]

/-- Witness for C9 at a 2 x 2 grid with 50 percent masks and 25 percent
isolation and concrete shuffled assignment lists. -/
theorem claim_C9_witness :
    (mkModel 2 1 [false, true, true, false] [false, false, true, false]
        1).agents.countP (fun a => a.has_mask) =
      (numFromPercent 50 (2 * 2)).toNat ∧
    (mkModel 2 1 [false, true, true, false] [false, false, true, false]
        1).agents.countP (fun a => a.should_isolate) =
      (numFromPercent 25 (2 * 2)).toNat := by
  have h50 : numFromPercent 50 (2 * 2) = 2 := by
    apply pyRound_eq_of_intCast
    push_cast
    norm_num
  have h25 : numFromPercent 25 (2 * 2) = 1 := by
    apply pyRound_eq_of_intCast
    push_cast
    norm_num
  refine claim_C9 2 (by norm_num) 1 1 50 25 (by norm_num) (by norm_num)
    (by norm_num) (by norm_num) [false, true, true, false]
    [false, false, true, false] ?_ ?_
  · rw [h50]
    decide
  · rw [h25]
    decide
theorem centerCoord_odd (t : ℕ) : centerCoord (2 * t + 1) = t := by
  apply pyRound_eq_of_intCast
  push_cast
  ring

theorem centerCoord_even (t : ℕ) :
    centerCoord (2 * t + 2) = if 2 ∣ (t : ℤ) then (t : ℤ) else t + 1 := by
  unfold centerCoord
  have hq : ((((2 * t + 2 : ℕ) : ℚ)) - 1) / 2 = ((t : ℤ) : ℚ) + 1 / 2 := by
    push_cast
    ring
  rw [hq, pyRound_int_add_half]

theorem centerCoord_bounds (g : ℕ) (hg : 0 < g) :
    0 ≤ centerCoord g ∧ centerCoord g < (g : ℤ) := by
  rcases Nat.even_or_odd g with ⟨t, ht⟩ | ⟨t, ht⟩
  · have ht2 : g = 2 * (t - 1) + 2 := by omega
    rw [ht2, centerCoord_even]
    split_ifs <;> constructor <;> push_cast <;> omega
  · have ht2 : g = 2 * t + 1 := by omega
    rw [ht2, centerCoord_odd]
    constructor <;> push_cast <;> omega

theorem centerCoord_nearest (g : ℕ) (hg : 0 < g) (c : ℤ) :
    |2 * centerCoord g - ((g : ℤ) - 1)| ≤ |2 * c - ((g : ℤ) - 1)| := by
  rcases Nat.even_or_odd g with ⟨t, ht⟩ | ⟨t, ht⟩
  · have ht1 : 1 ≤ t := by omega
    have ht2 : g = 2 * (t - 1) + 2 := by omega
    subst ht2
    rw [centerCoord_even]
    have hodd : 2 * c - (((2 * (t - 1) + 2 : ℕ) : ℤ) - 1) ≠ 0 := by
      push_cast
      omega
    have hge := Int.one_le_abs hodd
    split_ifs
    · have hv : 2 * ((t - 1 : ℕ) : ℤ) - (((2 * (t - 1) + 2 : ℕ) : ℤ) - 1) = -1 := by
        push_cast
        ring
      rw [hv]
      simpa using hge
    · have hv : 2 * (((t - 1 : ℕ) : ℤ) + 1) - (((2 * (t - 1) + 2 : ℕ) : ℤ) - 1) = 1 := by
        push_cast
        ring
      rw [hv]
      simpa using hge
  · have ht2 : g = 2 * t + 1 := by omega
    subst ht2
    rw [centerCoord_odd]
    have hv : 2 * (t : ℤ) - (((2 * t + 1 : ℕ) : ℤ) - 1) = 0 := by
      push_cast
      ring
    rw [hv]
    simp only [abs_zero]
    exact abs_nonneg _

theorem infectiousAgentIndex_bounds (g : ℕ) (hg : 0 < g) :
    0 ≤ infectiousAgentIndex g ∧ infectiousAgentIndex g < ((g * g : ℕ) : ℤ) := by
  obtain ⟨h0, h1⟩ := centerCoord_bounds g hg
  unfold infectiousAgentIndex
  constructor
  · positivity
  · push_cast
    nlinarith

theorem infectiousAgentIndex_col (g : ℕ) (hg : 0 < g) :
    infectiousAgentIndex g % (g : ℤ) = centerCoord g ∧
      infectiousAgentIndex g / (g : ℤ) = centerCoord g := by
  obtain ⟨h0, h1⟩ := centerCoord_bounds g hg
  have hgz : (g : ℤ) ≠ 0 := by omega
  unfold infectiousAgentIndex
  constructor
  · rw [show centerCoord g * g + centerCoord g =
      centerCoord g + centerCoord g * g from by ring,
      Int.add_mul_emod_self, Int.emod_eq_of_lt h0 h1]
  · rw [show centerCoord g * g + centerCoord g =
      centerCoord g + centerCoord g * g from by ring,
      Int.add_mul_ediv_right _ _ hgz, Int.ediv_eq_zero_of_lt h0 h1]
    ring
/-- C2 (amended): for every grid side g > 0 the constructor seeds exactly the
agent at `infectiousAgentIndex g` as initially INFECTIOUS with an
asymptomatic case and one counted infection, all other agents as SUSCEPTIBLE
with zero infections; that index is in range, its row and column both equal
`centerCoord g` (the Python banker's rounding of (g-1)/2), and that column is
at least as near the geometric center of the column coordinates 2c-(g-1) as
every other column — with a half-integer center the tie is broken by
round-half-to-even, not toward the lower index. -/
theorem claim_C2 (g : ℕ) (hg : 0 < g) (days : ℤ) (maskL isoL : List Bool)
    (dist : ℚ) :
    (∀ i : ℕ, i < g * g →
      ((i : ℤ) = infectiousAgentIndex g →
        ((mkModel g days maskL isoL dist).agents.getD i default).compartment =
            Compartment.INFECTIOUS ∧
          ((mkModel g days maskL isoL dist).agents.getD i
              default).is_asymptomatic = true ∧
          ((mkModel g days maskL isoL dist).agents.getD i
              default).num_infections = 1) ∧
      ((i : ℤ) ≠ infectiousAgentIndex g →
        ((mkModel g days maskL isoL dist).agents.getD i default).compartment =
            Compartment.SUSCEPTIBLE ∧
          ((mkModel g days maskL isoL dist).agents.getD i
              default).num_infections = 0)) ∧
    (0 ≤ infectiousAgentIndex g ∧
      infectiousAgentIndex g < ((g * g : ℕ) : ℤ)) ∧
    (infectiousAgentIndex g % (g : ℤ) = centerCoord g ∧
      infectiousAgentIndex g / (g : ℤ) = centerCoord g) ∧
    ∀ c : ℤ, |2 * centerCoord g - ((g : ℤ) - 1)| ≤ |2 * c - ((g : ℤ) - 1)| := by
  refine ⟨?_, infectiousAgentIndex_bounds g hg, infectiousAgentIndex_col g hg,
    centerCoord_nearest g hg⟩
  intro i hi
  rw [mkModel_agent g days maskL isoL dist i hi]
  constructor
  · intro heq
    rw [agentInit_compartment, agentInit_asymptomatic, agentInit_num]
    simp [heq]
  · intro hne
    rw [agentInit_compartment, agentInit_num]
    simp [hne]

/-- Counterexample to C2 as stated: on a 4 x 4 grid the code seeds index 10,
at grid position (1, 1), although index 5, at grid position (-1, -1), is
exactly as near the grid's geometric center and has the lower index — Python
`round(1.5) = 2` rounds the half-integer center coordinate up to the even
value, not toward the lower index. -/
theorem claim_C2_counterexample :
    infectiousAgentIndex 4 = 10 ∧
      ((mkModel 4 1 [] [] 1).agents.getD 10 default).compartment =
        Compartment.INFECTIOUS ∧
      ((mkModel 4 1 [] [] 1).agents.getD 5 default).compartment =
        Compartment.SUSCEPTIBLE ∧
      (5 : ℕ) < 10 ∧
      ((mkModel 4 1 [] [] 1).agents.getD 5 default).x = -1 ∧
      ((mkModel 4 1 [] [] 1).agents.getD 5 default).y = -1 ∧
      ((mkModel 4 1 [] [] 1).agents.getD 10 default).x = 1 ∧
      ((mkModel 4 1 [] [] 1).agents.getD 10 default).y = 1 := by
  have hidx : infectiousAgentIndex 4 = 10 := by
    unfold infectiousAgentIndex
    rw [show (4 : ℕ) = 2 * 1 + 2 from rfl, centerCoord_even]
    rw [if_neg (by omega)]
    norm_num
  refine ⟨hidx, ?_, ?_, by norm_num, ?_, ?_, ?_, ?_⟩
  · rw [mkModel_agent 4 1 [] [] 1 10 (by norm_num), agentInit_compartment]
    simp [hidx]
  · rw [mkModel_agent 4 1 [] [] 1 5 (by norm_num), agentInit_compartment]
    simp [hidx]
  · rw [mkModel_agent 4 1 [] [] 1 5 (by norm_num), agentInit_x]
    norm_num
  · rw [mkModel_agent 4 1 [] [] 1 5 (by norm_num), agentInit_y]
    norm_num
  · rw [mkModel_agent 4 1 [] [] 1 10 (by norm_num), agentInit_x]
    norm_num
  · rw [mkModel_agent 4 1 [] [] 1 10 (by norm_num), agentInit_y]
    norm_num

/-- Witness for the amended C2 on a 3 x 3 grid: the center agent, index 4, is
the seed and index 0 is susceptible, and the center column is nearest the
geometric center. -/
theorem claim_C2_witness :
    ((mkModel 3 1 [] [] 1).agents.getD 4 default).compartment =
        Compartment.INFECTIOUS ∧
      ((mkModel 3 1 [] [] 1).agents.getD 4 default).is_asymptomatic = true ∧
      ((mkModel 3 1 [] [] 1).agents.getD 4 default).num_infections = 1 ∧
      ((mkModel 3 1 [] [] 1).agents.getD 0 default).compartment =
        Compartment.SUSCEPTIBLE ∧
      ((mkModel 3 1 [] [] 1).agents.getD 0 default).num_infections = 0 ∧
      |2 * centerCoord 3 - ((3 : ℤ) - 1)| ≤ |2 * 5 - ((3 : ℤ) - 1)| := by
  have hidx : infectiousAgentIndex 3 = 4 := by
    unfold infectiousAgentIndex
    rw [show (3 : ℕ) = 2 * 1 + 1 from rfl, centerCoord_odd]
    norm_num
  obtain ⟨ha, _, _, hnear⟩ := claim_C2 3 (by norm_num) 1 [] [] 1
  obtain ⟨h4, _⟩ := ha 4 (by norm_num)
  obtain ⟨_, h0⟩ := ha 0 (by norm_num)
  obtain ⟨p1, p2, p3⟩ := h4 (by rw [hidx]; decide)
  obtain ⟨q1, q2⟩ := h0 (by rw [hidx]; decide)
  have hlast := hnear 5
  exact ⟨p1, p2, p3, q1, q2, by exact_mod_cast hlast⟩
theorem modelTick_peak (o : ModelOracle) (m : ModelState) :
    (modelTick o m).peak_cases =
      if m.peak_cases < activeCases (modelTick o m).agents then
        activeCases (modelTick o m).agents
      else m.peak_cases := rfl

theorem modelTick_tickCount (o : ModelOracle) (m : ModelState) :
    (modelTick o m).tick_count = m.tick_count + 1 := rfl

theorem countP_range_int_eq (n : ℕ) (z : ℤ) :
    (List.range n).countP (fun (i : ℕ) => decide ((i : ℤ) = z)) =
      if 0 ≤ z ∧ z < (n : ℤ) then 1 else 0 := by
  induction n with
  | zero =>
    simp only [List.range_zero, List.countP_nil]
    split_ifs with h
    · omega
    · rfl
  | succ k ih =>
    rw [List.range_succ, List.countP_append, ih]
    by_cases hc : (k : ℤ) = z <;>
      simp only [List.countP_cons, List.countP_nil, hc] <;> split_ifs <;>
      simp_all <;> omega

theorem activeCases_mkModel (g : ℕ) (hg : 0 < g) (days : ℤ)
    (maskL isoL : List Bool) (dist : ℚ) :
    activeCases (mkModel g days maskL isoL dist).agents = 1 := by
  unfold activeCases
  simp only [mkModel]
  rw [List.countP_map]
  have hfun : ((fun ag =>
      decide (ag.compartment = Compartment.EXPOSED) ||
        decide (ag.compartment = Compartment.INFECTIOUS)) ∘ fun (i : ℕ) =>
      agentInit
        (dist * ((2 * ((i : ℤ) % (g : ℤ)) - ((g : ℤ) - 1) : ℤ) : ℚ))
        (dist * ((2 * ((i : ℤ) / (g : ℤ)) - ((g : ℤ) - 1) : ℤ) : ℚ))
        (maskL.getD i false) (isoL.getD i false)
        (decide ((i : ℤ) = infectiousAgentIndex g))) =
      fun (i : ℕ) => decide ((i : ℤ) = infectiousAgentIndex g) := by
    funext i
    simp only [Function.comp]
    rw [agentInit_compartment]
    cases hd : decide ((i : ℤ) = infectiousAgentIndex g) <;> simp
  rw [hfun, countP_range_int_eq]
  obtain ⟨h0, h1⟩ := infectiousAgentIndex_bounds g hg
  rw [if_pos ⟨h0, by exact_mod_cast h1⟩]

/-- C7: the peak case count never decreases across a tick, is at least the
active case count after every completed tick, and at construction equals the
active case count of the fresh population (one seeded case). -/
theorem claim_C7 :
    (∀ (o : ModelOracle) (m : ModelState),
      m.peak_cases ≤ (modelTick o m).peak_cases) ∧
    (∀ (o : ModelOracle) (m : ModelState),
      activeCases (modelTick o m).agents ≤ (modelTick o m).peak_cases) ∧
    ∀ (g : ℕ), 0 < g → ∀ (days : ℤ) (maskL isoL : List Bool) (dist : ℚ),
      activeCases (mkModel g days maskL isoL dist).agents ≤
        (mkModel g days maskL isoL dist).peak_cases := by
  refine ⟨?_, ?_, ?_⟩
  · intro o m
    rw [modelTick_peak]
    split_ifs with h <;> omega
  · intro o m
    rw [modelTick_peak]
    split_ifs with h <;> omega
  · intro g hg days maskL isoL dist
    rw [activeCases_mkModel g hg days maskL isoL dist]
    exact le_refl 1

/-- Witness for C7 on the 1 x 1 grid. -/
theorem claim_C7_witness :
    activeCases (mkModel 1 1 [] [] 1).agents ≤
      (mkModel 1 1 [] [] 1).peak_cases :=
  claim_C7.2.2 1 (by norm_num) 1 [] [] 1
theorem sorted_insertionSort_key {α β : Type} [LinearOrder β] (k : α → β)
    [DecidableRel (fun a b : α => k a ≤ k b)] (l : List α) :
    (List.insertionSort (fun a b => k a ≤ k b) l).Sorted
      (fun a b => k a ≤ k b) := by
  haveI : IsTotal α (fun a b => k a ≤ k b) := ⟨fun a b => le_total (k a) (k b)⟩
  haveI : IsTrans α (fun a b => k a ≤ k b) :=
    ⟨fun a b c h1 h2 => le_trans h1 h2⟩
  exact List.sorted_insertionSort _ l

theorem sorted_take_countP {α β : Type} [LinearOrder β] (k : α → β) (hi : β) :
    ∀ (l : List α), l.Sorted (fun a b => k a ≤ k b) →
      l.take (l.countP (fun a => decide (k a ≤ hi))) =
        l.filter (fun a => decide (k a ≤ hi)) := by
  intro l
  induction l with
  | nil => intro _; rfl
  | cons a t ih =>
    intro hs
    rw [List.sorted_cons] at hs
    obtain ⟨ha, ht⟩ := hs
    by_cases hc : k a ≤ hi
    · rw [List.countP_cons, List.filter_cons]
      simp only [hc, decide_True, if_pos]
      rw [List.take_succ_cons, ih ht]
    · have hz : t.countP (fun a => decide (k a ≤ hi)) = 0 := by
        rw [List.countP_eq_zero]
        intro b hb
        simp only [decide_eq_true_eq]
        intro hble
        exact hc (le_trans (ha b hb) hble)
      have hfz : t.filter (fun a => decide (k a ≤ hi)) = [] := by
        rw [List.filter_eq_nil_iff]
        intro b hb
        simp only [decide_eq_true_eq]
        intro hble
        exact hc (le_trans (ha b hb) hble)
      rw [List.countP_cons, List.filter_cons]
      simp [hz, hfz, hc]

theorem sorted_slice_countP {α β : Type} [LinearOrder β] (k : α → β)
    (lo hi : β) :
    ∀ (l : List α), l.Sorted (fun a b => k a ≤ k b) →
      ((l.drop (l.countP (fun a => decide (k a < lo)))).take
          (l.countP (fun a => decide (k a ≤ hi)) -
            l.countP (fun a => decide (k a < lo)))) =
        l.filter (fun a => decide (lo ≤ k a) && decide (k a ≤ hi)) := by
  intro l
  induction l with
  | nil => intro _; rfl
  | cons a t ih =>
    intro hs
    rw [List.sorted_cons] at hs
    obtain ⟨ha, ht⟩ := hs
    by_cases hlt : k a < lo
    · have hnlo : ¬ lo ≤ k a := not_le.mpr hlt
      by_cases hhi : k a ≤ hi
      · rw [List.countP_cons, List.countP_cons, List.filter_cons]
        simp only [hlt, hhi, decide_True, if_pos]
        have : (t.countP (fun a => decide (k a ≤ hi)) + 1) -
            (t.countP (fun a => decide (k a < lo)) + 1) =
            t.countP (fun a => decide (k a ≤ hi)) -
              t.countP (fun a => decide (k a < lo)) := by omega
        rw [List.drop_succ_cons, this, ih ht]
        simp [hnlo]
      · have hz : t.countP (fun a => decide (k a ≤ hi)) = 0 := by
          rw [List.countP_eq_zero]
          intro b hb
          simp only [decide_eq_true_eq]
          intro hble
          exact hhi (le_trans (ha b hb) hble)
        have hzc : (a :: t).countP (fun a => decide (k a ≤ hi)) = 0 := by
          rw [List.countP_cons]
          simp [hz, hhi]
        have hfz : (a :: t).filter
            (fun a => decide (lo ≤ k a) && decide (k a ≤ hi)) = [] := by
          rw [List.filter_eq_nil_iff]
          intro b hb
          rcases List.mem_cons.mp hb with rfl | hbt
          · simp [hnlo]
          · simp only [Bool.and_eq_true, decide_eq_true_eq, not_and]
            intro _ hble
            exact hhi (le_trans (ha b hbt) hble)
        rw [hzc, hfz]
        simp
    · have hlo : lo ≤ k a := not_lt.mp hlt
      have hzl : (a :: t).countP (fun a => decide (k a < lo)) = 0 := by
        rw [List.countP_eq_zero]
        intro b hb
        simp only [decide_eq_true_eq]
        rcases List.mem_cons.mp hb with rfl | hbt
        · exact not_lt.mpr hlo
        · exact not_lt.mpr (le_trans hlo (ha b hbt))
      rw [hzl]
      simp only [List.drop_zero, Nat.sub_zero]
      rw [sorted_take_countP k hi (a :: t) (List.sorted_cons.mpr ⟨ha, ht⟩)]
      apply List.filter_congr
      intro b hb
      have hblo : lo ≤ k b := by
        rcases List.mem_cons.mp hb with rfl | hbt
        · exact hlo
        · exact le_trans hlo (ha b hbt)
      simp [hblo]
theorem map_getD_range' {α : Type} (l : List α) (d : α) :
    ∀ (len s : ℕ), s + len ≤ l.length →
      (List.range' s len).map (fun i => l.getD i d) = (l.drop s).take len := by
  intro len
  induction len with
  | zero => intro s _; simp
  | succ m ih =>
    intro s h
    have hs : s < l.length := by omega
    rw [List.range'_succ, List.map_cons, List.drop_eq_getElem_cons hs,
      List.take_succ_cons, ih (s + 1) (by omega)]
    congr 1
    rw [List.getD_eq_getElem?_getD, List.getElem?_eq_getElem hs]
    rfl

theorem flatMap_if_singleton {α β : Type} (p : α → Prop) [DecidablePred p]
    (f : α → β) :
    ∀ (l : List α),
      (l.flatMap (fun a => if p a then [f a] else [])) =
        (l.filter (fun a => decide (p a))).map f := by
  intro l
  induction l with
  | nil => rfl
  | cons a t ih =>
    rw [List.flatMap_cons, List.filter_cons, ih]
    by_cases hc : p a <;> simp [hc]

theorem flatMap_if_guard {α β : Type} (p : α → Prop) [DecidablePred p]
    (f : α → List β) :
    ∀ (l : List α),
      (l.flatMap (fun a => if p a then f a else [])) =
        (l.filter (fun a => decide (p a))).flatMap f := by
  intro l
  induction l with
  | nil => rfl
  | cons a t ih =>
    rw [List.flatMap_cons, List.filter_cons, ih]
    by_cases hc : p a <;> simp [hc]

theorem perm_flatMap {α β : Type} {l₁ l₂ : List α} (h : l₁.Perm l₂)
    (f g : α → List β) (hfg : ∀ a, (f a).Perm (g a)) :
    (l₁.flatMap f).Perm (l₂.flatMap g) :=
  (h.flatMap_right f).trans (List.Perm.flatMap_left l₂ (fun a _ => hfg a))

theorem distLe_window (a ag : AgentState) (d : ℚ) (h : distLe a ag d) :
    ag.x - d ≤ a.x ∧ a.x ≤ ag.x + d := by
  have habs : |((a.x - ag.x : ℚ) : ℝ)| ≤ ((d : ℚ) : ℝ) := by
    have h1 : (((a.x - ag.x) * (a.x - ag.x) : ℚ) : ℝ) ≤
        (((a.x - ag.x) * (a.x - ag.x) + (a.y - ag.y) * (a.y - ag.y) : ℚ) : ℝ) := by
      have : (0 : ℚ) ≤ (a.y - ag.y) * (a.y - ag.y) := mul_self_nonneg _
      push_cast
      nlinarith [this]
    have h2 := le_trans (Real.sqrt_le_sqrt h1) h
    rwa [show (((a.x - ag.x) * (a.x - ag.x) : ℚ) : ℝ) =
        ((a.x - ag.x : ℚ) : ℝ) * ((a.x - ag.x : ℚ) : ℝ) from by push_cast; ring,
      Real.sqrt_mul_self_eq_abs] at h2
  have habs2 : |a.x - ag.x| ≤ d := by
    rwa [show |((a.x - ag.x : ℚ) : ℝ)| = ((|a.x - ag.x| : ℚ) : ℝ) from by
      push_cast; rfl, Rat.cast_le] at habs
  rw [abs_le] at habs2
  constructor <;> linarith [habs2.1, habs2.2]

theorem compValue_le_zero (a : AgentState) :
    (a.compartment.value ≤ 0) ↔ a.compartment = Compartment.SUSCEPTIBLE := by
  cases a.compartment <;> simp [Compartment.value]

theorem compValue_eq_two (a : AgentState) :
    (2 ≤ a.compartment.value ∧ a.compartment.value ≤ 2) ↔
      a.compartment = Compartment.INFECTIOUS := by
  cases a.compartment <;> simp [Compartment.value]
theorem suscIdxList_sorted (S : List AgentState) :
    (suscIdxList S).Sorted
      (fun i j => (S.getD i default).x ≤ (S.getD j default).x) :=
  sorted_insertionSort_key (fun i => (S.getD i default).x)
    (List.range (suscCount S))

theorem suscIdxList_perm (S : List AgentState) :
    (suscIdxList S).Perm (List.range (suscCount S)) :=
  List.perm_insertionSort _ _

theorem suscVals_perm (S : List AgentState)
    (hS : S.Sorted (fun a b => a.compartment.value ≤ b.compartment.value)) :
    ((suscIdxList S).map (fun i => S.getD i default)).Perm
      (S.filter (fun a => decide (a.compartment = Compartment.SUSCEPTIBLE))) := by
  have h1 := (suscIdxList_perm S).map (fun i => S.getD i default)
  have h2 : (List.range (suscCount S)).map (fun i => S.getD i default) =
      S.take (suscCount S) := by
    rw [List.range_eq_range']
    rw [map_getD_range' S default (suscCount S) 0
      (by simpa using List.countP_le_length _)]
    rw [List.drop_zero]
  have h3 : S.take (suscCount S) =
      S.filter (fun a => decide (a.compartment.value ≤ 0)) := by
    unfold suscCount
    exact sorted_take_countP (fun a => a.compartment.value) 0 S hS
  have h4 : S.filter (fun a => decide (a.compartment.value ≤ 0)) =
      S.filter (fun a => decide (a.compartment = Compartment.SUSCEPTIBLE)) := by
    apply List.filter_congr
    intro a _
    cases ha : a.compartment <;> simp [Compartment.value, ha]
  rw [h2, h3, h4] at h1
  exact h1

theorem infSlice_eq (S : List AgentState)
    (hS : S.Sorted (fun a b => a.compartment.value ≤ b.compartment.value)) :
    (List.range' (infLeftIndex S) (infRightIndex S - infLeftIndex S)).map
        (fun i => S.getD i default) =
      S.filter (fun a => decide (a.compartment = Compartment.INFECTIOUS)) := by
  have hl : infLeftIndex S ≤ S.length := List.countP_le_length _
  have hr : infRightIndex S ≤ S.length := List.countP_le_length _
  rw [map_getD_range' S default (infRightIndex S - infLeftIndex S)
    (infLeftIndex S) (by omega)]
  have h1 := sorted_slice_countP (fun a => a.compartment.value) 2 2 S hS
  rw [show S.countP (fun a => decide (a.compartment.value < 2)) =
      infLeftIndex S from rfl,
    show S.countP (fun a => decide (a.compartment.value ≤ 2)) =
      infRightIndex S from rfl] at h1
  rw [h1]
  apply List.filter_congr
  intro a _
  cases ha : a.compartment <;> simp [Compartment.value, ha]

theorem window_slice (S : List AgentState) (ag : AgentState) (d : ℚ) :
    (List.range' ((suscXs S).countP (fun v => decide (v < ag.x - d)))
        ((suscXs S).countP (fun v => decide (v ≤ ag.x + d)) -
          (suscXs S).countP (fun v => decide (v < ag.x - d)))).map
        (fun jp => (suscIdxList S).getD jp 0) =
      (suscIdxList S).filter (fun j =>
        decide (ag.x - d ≤ (S.getD j default).x) &&
          decide ((S.getD j default).x ≤ ag.x + d)) := by
  have hjl : (suscXs S).countP (fun v => decide (v < ag.x - d)) =
      (suscIdxList S).countP
        (fun j => decide ((S.getD j default).x < ag.x - d)) := by
    rw [show suscXs S =
      (suscIdxList S).map (fun i => (S.getD i default).x) from rfl,
      List.countP_map]
    rfl
  have hjr : (suscXs S).countP (fun v => decide (v ≤ ag.x + d)) =
      (suscIdxList S).countP
        (fun j => decide ((S.getD j default).x ≤ ag.x + d)) := by
    rw [show suscXs S =
      (suscIdxList S).map (fun i => (S.getD i default).x) from rfl,
      List.countP_map]
    rfl
  rw [hjl, hjr]
  have hl := List.countP_le_length
    (fun j => decide ((S.getD j default).x < ag.x - d)) (l := suscIdxList S)
  have hr := List.countP_le_length
    (fun j => decide ((S.getD j default).x ≤ ag.x + d)) (l := suscIdxList S)
  rw [map_getD_range' (suscIdxList S) 0 _ _ (by omega)]
  exact sorted_slice_countP (fun j => (S.getD j default).x) (ag.x - d)
    (ag.x + d) (suscIdxList S) (suscIdxList_sorted S)

theorem inner_loop_eq (S : List AgentState) (ag : AgentState) (d : ℚ) (i : ℕ) :
    (List.range' ((suscXs S).countP (fun v => decide (v < ag.x - d)))
        ((suscXs S).countP (fun v => decide (v ≤ ag.x + d)) -
          (suscXs S).countP (fun v => decide (v < ag.x - d)))).flatMap
      (fun jp =>
        if distLe (S.getD ((suscIdxList S).getD jp 0) default) ag d then
          [(i, (suscIdxList S).getD jp 0)]
        else []) =
      ((suscIdxList S).filter (fun j =>
          decide (distLe (S.getD j default) ag d))).map (fun j => (i, j)) := by
  calc
    (List.range' ((suscXs S).countP (fun v => decide (v < ag.x - d)))
        ((suscXs S).countP (fun v => decide (v ≤ ag.x + d)) -
          (suscXs S).countP (fun v => decide (v < ag.x - d)))).flatMap
      (fun jp =>
        if distLe (S.getD ((suscIdxList S).getD jp 0) default) ag d then
          [(i, (suscIdxList S).getD jp 0)]
        else [])
      = ((List.range' ((suscXs S).countP (fun v => decide (v < ag.x - d)))
            ((suscXs S).countP (fun v => decide (v ≤ ag.x + d)) -
              (suscXs S).countP (fun v => decide (v < ag.x - d)))).map
          (fun jp => (suscIdxList S).getD jp 0)).flatMap
          (fun j => if distLe (S.getD j default) ag d then [(i, j)] else []) :=
        (List.flatMap_map (fun jp => (suscIdxList S).getD jp 0)
          (fun j => if distLe (S.getD j default) ag d then [(i, j)] else [])
          _).symm
    _ = ((suscIdxList S).filter (fun j =>
          decide (ag.x - d ≤ (S.getD j default).x) &&
            decide ((S.getD j default).x ≤ ag.x + d))).flatMap
          (fun j => if distLe (S.getD j default) ag d then [(i, j)] else []) := by
        rw [window_slice]
    _ = (((suscIdxList S).filter (fun j =>
            decide (ag.x - d ≤ (S.getD j default).x) &&
              decide ((S.getD j default).x ≤ ag.x + d))).filter
          (fun j => decide (distLe (S.getD j default) ag d))).map
          (fun j => (i, j)) :=
        flatMap_if_singleton (fun j => distLe (S.getD j default) ag d)
          (fun j => (i, j)) _
    _ = ((suscIdxList S).filter (fun j =>
          decide (distLe (S.getD j default) ag d) &&
            (decide (ag.x - d ≤ (S.getD j default).x) &&
              decide ((S.getD j default).x ≤ ag.x + d)))).map
          (fun j => (i, j)) := by
        rw [List.filter_filter]
    _ = ((suscIdxList S).filter (fun j =>
          decide (distLe (S.getD j default) ag d))).map (fun j => (i, j)) := by
        rw [List.filter_congr]
        intro j _
        by_cases hd : distLe (S.getD j default) ag d
        · rw [decide_eq_true hd, decide_eq_true (distLe_window _ _ _ hd).1,
            decide_eq_true (distLe_window _ _ _ hd).2]
          rfl
        · rw [decide_eq_false hd]
          rfl

theorem tickPairs_eq (S : List AgentState) (d : ℚ) :
    tickPairs S d =
      (List.range' (infLeftIndex S) (infRightIndex S - infLeftIndex S)).flatMap
        (fun i =>
          if (S.getD i default).is_isolating = true then []
          else
            ((suscIdxList S).filter (fun j =>
                decide (distLe (S.getD j default) (S.getD i default) d))).map
              (fun j => (i, j))) := by
  unfold tickPairs
  congr 1
  funext i
  show (if (S.getD i default).is_isolating = true then ([] : List (ℕ × ℕ))
      else
        (List.range'
            ((suscXs S).countP (fun v => decide (v < (S.getD i default).x - d)))
            ((suscXs S).countP (fun v => decide (v ≤ (S.getD i default).x + d)) -
              (suscXs S).countP
                (fun v => decide (v < (S.getD i default).x - d)))).flatMap
          (fun jp =>
            if distLe (S.getD ((suscIdxList S).getD jp 0) default)
                (S.getD i default) d then
              [(i, (suscIdxList S).getD jp 0)]
            else [])) = _
  cases hiso : (S.getD i default).is_isolating
  · rw [if_neg (by simp [hiso]), if_neg (by simp [hiso])]
    exact inner_loop_eq S (S.getD i default) d i
  · rfl

theorem sortByComp_sorted (agents : List AgentState) :
    (sortByComp agents).Sorted
      (fun a b => a.compartment.value ≤ b.compartment.value) :=
  sorted_insertionSort_key (fun a => a.compartment.value) agents

theorem tickPairAgents_eq (agents : List AgentState) (d : ℚ) :
    tickPairAgents agents d =
      ((sortByComp agents).filter
          (fun a => decide (a.compartment = Compartment.INFECTIOUS))).flatMap
        (infBody (sortByComp agents) d) := by
  unfold tickPairAgents
  rw [tickPairs_eq, List.map_flatMap, ← infSlice_eq (sortByComp agents)
    (sortByComp_sorted agents), List.flatMap_map]
  congr 1
  funext i
  by_cases hiso : ((sortByComp agents).getD i default).is_isolating = true
  · rw [if_pos hiso]
    simp only [infBody]
    rw [if_pos hiso, List.map_nil]
  · rw [if_neg hiso]
    simp only [infBody]
    rw [if_neg hiso, List.map_map, List.filter_map, List.map_map]
    rfl

theorem naiveContactScan_eq (agents : List AgentState) (d : ℚ) :
    naiveContactScan agents d =
      (agents.filter
          (fun a => decide (a.compartment = Compartment.INFECTIOUS))).flatMap
        (fun ag =>
          if ag.is_isolating = true then []
          else
            ((agents.filter
                (fun a => decide (a.compartment = Compartment.SUSCEPTIBLE))).filter
              (fun a => decide (distLe a ag d))).map (fun a => (ag, a))) := by
  unfold naiveContactScan
  rw [← flatMap_if_guard (fun ag => ag.compartment = Compartment.INFECTIOUS)
    (fun ag =>
      if ag.is_isolating = true then []
      else
        ((agents.filter
            (fun a => decide (a.compartment = Compartment.SUSCEPTIBLE))).filter
          (fun a => decide (distLe a ag d))).map (fun a => (ag, a))) agents]
  congr 1
  funext ag
  by_cases hinf : ag.compartment = Compartment.INFECTIOUS
  · by_cases hiso : ag.is_isolating = true
    · rw [if_neg (by simp [hiso]), if_pos hinf, if_pos hiso]
    · rw [if_pos ⟨hinf, by simpa using hiso⟩, if_pos hinf, if_neg hiso,
        List.filter_filter]
      rw [List.filter_congr]
      intro a _
      cases hs : decide (a.compartment = Compartment.SUSCEPTIBLE) <;>
        cases hd : decide (distLe a ag d) <;> rfl
  · rw [if_neg (fun hc => hinf hc.1), if_neg hinf]

/-- C1: the spatial-index contact search of `Model.tick` (sort by compartment,
extract the susceptible bucket sorted by x, binary-search the inclusive
x-window for each non-isolating infectious agent, then exact Euclidean
distance check) attempts contact on exactly the same multiset of (infectious
non-isolating agent, susceptible agent) pairs as the naive quadratic scan over
all pairs at Euclidean distance at most the infection radius: the x-window
pre-filter never prunes a pair within the radius. -/
theorem claim_C1 (agents : List AgentState) (d : ℚ) :
    (tickPairAgents agents d : Multiset (AgentState × AgentState)) =
      (naiveContactScan agents d : Multiset (AgentState × AgentState)) := by
  rw [Multiset.coe_eq_coe, tickPairAgents_eq, naiveContactScan_eq]
  have hperm : (sortByComp agents).Perm agents := List.perm_insertionSort _ _
  apply perm_flatMap
  · exact hperm.filter _
  · intro ag
    by_cases hiso : ag.is_isolating = true
    · rw [show infBody (sortByComp agents) d ag = [] from by
        simp only [infBody]; rw [if_pos hiso], if_pos hiso]
    · rw [show infBody (sortByComp agents) d ag =
        (((suscIdxList (sortByComp agents)).map
            (fun i => (sortByComp agents).getD i default)).filter
          (fun a => decide (distLe a ag d))).map (fun a => (ag, a)) from by
        simp only [infBody]; rw [if_neg hiso], if_neg hiso]
      exact (((suscVals_perm _ (sortByComp_sorted agents)).trans
        (hperm.filter _)).filter _).map _
